import Mathlib

/-!
Shallow embedding of the Tekton gesture-driven 2D physics engine
(`src/src/engine/engine.ts`, types from `src/src/engine/types.ts`).

Numbers are modelled as real numbers (`ℝ`): the source runs on JavaScript
doubles and freely uses `Math.sqrt` / `Math.hypot` / `Math.exp`, so an exact
rational model is impossible; the claims under verification are stated about
the exact real-arithmetic semantics of the same formulas.  JavaScript
in-place mutation of the engine's state is modelled by explicit state
passing: every mutating function of the source becomes a Lean function from
the engine state (plus the external inputs it reads) to the new engine state.
Window geometry (`window.innerWidth` / `innerHeight`) is an external input
and is passed as an `Env` value; `performance.now()` timestamps are passed
as explicit `now` arguments.  Cosmetic fields (`color`) and pure rendering
code are not modelled.
-/

namespace Tekton

noncomputable section

open Classical

/-- 2D point, from `types.ts` (`Point2 = { x, y }`). -/
@[ext]
structure Point2 where
  x : ℝ
  y : ℝ

instance : Inhabited Point2 := ⟨⟨0, 0⟩⟩

/-- Shape data of a body.  The source stores `kind : 'circle' | 'box'` with
optional `radius` / `size` fields that are populated exactly according to
`kind`; this tagged sum encodes that invariant (`radius ?? 0` reads become
the `circle` payload, `size!.w` / `size!.h` the `box` payload). -/
inductive BodyShape where
  | circle (radius : ℝ)
  | box (w h : ℝ)

/-- A dynamic simulated body, from `types.ts` (`PhysicsBody`).  The cosmetic
`color` field is omitted. -/
@[ext]
structure PhysicsBody where
  id : ℕ
  shape : BodyShape
  pos : Point2
  vel : Point2
  restitution : ℝ
  friction : ℝ
  mass : ℝ

instance : Inhabited PhysicsBody :=
  ⟨{ id := 0, shape := .circle 0, pos := ⟨0, 0⟩, vel := ⟨0, 0⟩,
     restitution := 0, friction := 0, mass := 1 }⟩

/-- A recent grab-point velocity sample (`{ v : Point2; t : number }`). -/
@[ext]
structure Sample where
  v : Point2
  t : ℝ

instance : Inhabited Sample := ⟨⟨⟨0, 0⟩, 0⟩⟩

/-- Per-hand pointer state (`PointerState` in `engine.ts`). -/
@[ext]
structure PointerState where
  pinch : Option Point2
  prevPinch : Option Point2
  pinchVel : Point2
  lastPinchT : ℝ

/-- One kinematic hand collider (world space), from the element type of
`HandState.colliders`. -/
@[ext]
structure HandCollider where
  handIndex : ℕ
  pos : Point2
  vel : Point2
  r : ℝ

/-- Per-hand state (`HandState` in `engine.ts`). -/
@[ext]
structure HandState where
  pointer : PointerState
  grabActiveId : Option ℕ
  lastLandmarksPx : Option (List Point2)
  isPinching : Bool
  pinchPosPx : Option Point2
  isGrasping : Bool
  palmPosPx : Option Point2
  grabPosPx : Option Point2
  throwSamples : List Sample
  colliders : List HandCollider
  prevColliderPos : List Point2

/-- The initial per-hand state of `createEngine` (`handsState` array
element). -/
def initialHand : HandState :=
  { pointer := { pinch := none, prevPinch := none, pinchVel := ⟨0, 0⟩, lastPinchT := 0 }
    grabActiveId := none
    lastLandmarksPx := none
    isPinching := false
    pinchPosPx := none
    isGrasping := false
    palmPosPx := none
    grabPosPx := none
    throwSamples := []
    colliders := []
    prevColliderPos := [] }

instance : Inhabited HandState := ⟨initialHand⟩

/-- Live-tunable settings object of `createEngine` (the subset that affects
simulation; rendering-style fields are omitted). -/
@[ext]
structure Settings where
  zoom : ℝ
  gravity : ℝ
  airDrag : ℝ
  floorHeight : ℝ
  grabRadius : ℝ
  throwScale : ℝ
  restitution : ℝ
  friction : ℝ

/-- The 2D world camera (`camera2d` in `engine.ts`). -/
@[ext]
structure Camera2D where
  zoom : ℝ
  centerWorld : Point2

/-- External window geometry (`window.innerWidth` / `window.innerHeight`). -/
@[ext]
structure Env where
  width : ℝ
  height : ℝ

/-- The whole mutable engine state of `createEngine`: the physics world,
the per-hand states, the body-id × hand-index collision-ignore map, the
playground score bookkeeping, settings and camera. -/
@[ext]
structure EngineState where
  nextId : ℕ
  bodies : List PhysicsBody
  hands : List HandState
  ignoreUntil : List ((ℕ × ℕ) × ℝ)
  score : ℕ
  lastBodyY : List (ℕ × ℝ)
  settings : Settings
  cam : Camera2D

namespace CONFIG

/-- `CONFIG.maxNumHands`. -/
def maxNumHands : ℕ := 2

/-- `CONFIG.pinchStart` (normalized landmark units). -/
def pinchStart : ℝ := 0.055

/-- `CONFIG.pinchEnd` (normalized landmark units). -/
def pinchEnd : ℝ := 0.075

/-- `CONFIG.smoothing`. -/
def smoothing : ℝ := 0.5

namespace physics

def gravity : ℝ := 2200
def airDrag : ℝ := 0.02
def floorHeight : ℝ := 140
def substeps : ℕ := 2
def maxDt : ℝ := 1 / 30
def grabRadius : ℝ := 70
def throwScale : ℝ := 1.25
def grabFollow : ℝ := 0.9
def grabPosGain : ℝ := 18
def maxGrabSpeed : ℝ := 5200
def throwSmoothing : ℝ := 0.35
def maxThrowSpeed : ℝ := 3600
def throwBlend : ℝ := 0.9
def throwWindowMs : ℝ := 140
def throwMinSamples : ℕ := 2
def hoopEnabled : Bool := true
def hoopRestitution : ℝ := 0.75
def hoopFriction : ℝ := 0.25
def handCollisions : Bool := true
def handPalmRadius : ℝ := 58
def handPointRadius : ℝ := 18
def handRestitution : ℝ := 0.65
def throwHandIgnoreMs : ℝ := 140

end physics

end CONFIG

/-- `clamp(v, min, max)`. -/
def clamp (v lo hi : ℝ) : ℝ := max lo (min hi v)

/-- `lerp(a, b, t)`. -/
def lerp (a b t : ℝ) : ℝ := a + (b - a) * t

/-- `clampVecMag(v, maxMag)`. -/
def clampVecMag (v : Point2) (maxMag : ℝ) : Point2 :=
  let m2 := v.x * v.x + v.y * v.y
  if m2 ≤ maxMag * maxMag then v
  else
    let m := Real.sqrt (max m2 1e-12)
    let s := maxMag / m
    ⟨v.x * s, v.y * s⟩

/-- Insertion into an ascending-sorted list; used to model the
`[...values].sort((a, b) => a - b)` call of `median`. -/
def insertSorted (a : ℝ) : List ℝ → List ℝ
  | [] => [a]
  | b :: rest => if a ≤ b then a :: b :: rest else b :: insertSorted a rest

/-- Ascending sort of a list of numbers (insertion sort; agrees with the
source's comparator-based sort). -/
def sortReals : List ℝ → List ℝ
  | [] => []
  | a :: rest => insertSorted a (sortReals rest)

/-- `median(values)`. -/
def median (values : List ℝ) : ℝ :=
  if values.length = 0 then 0
  else
    let sorted := sortReals values
    let mid := sorted.length / 2
    if sorted.length % 2 = 0 then (sorted.getD (mid - 1) 0 + sorted.getD mid 0) / 2
    else sorted.getD mid 0

/-- `robustAverageVelocity(samples, maxSpeed)`. -/
def robustAverageVelocity (samples : List Sample) (maxSpeed : ℝ) : Point2 :=
  match samples with
  | [] => ⟨0, 0⟩
  | [s0] => clampVecMag s0.v maxSpeed
  | _ :: _ :: _ =>
    let mx := median (samples.map (fun s => s.v.x))
    let my := median (samples.map (fun s => s.v.y))
    let filtered := samples.filter (fun s =>
      decide ((s.v.x - mx) * (s.v.x - mx) + (s.v.y - my) * (s.v.y - my)
        ≤ (maxSpeed * 0.65) * (maxSpeed * 0.65)))
    let used := if 0 < filtered.length then filtered else samples
    let tMax := (used.getD (used.length - 1) default).t
    let weight := fun (s : Sample) => Real.exp (-(max 0 (tMax - s.t)) / 70)
    let sumW := (used.map (fun s => weight s)).sum
    let sumX := (used.map (fun s => s.v.x * weight s)).sum
    let sumY := (used.map (fun s => s.v.y * weight s)).sum
    let out : Point2 :=
      ⟨if 0 < sumW then sumX / sumW else mx, if 0 < sumW then sumY / sumW else my⟩
    clampVecMag out maxSpeed

/-- `smoothPoints(prev, next, smoothing)`. -/
def smoothPoints (prev : Option (List Point2)) (next : List Point2) (smoothing : ℝ) :
    List Point2 :=
  match prev with
  | none => next
  | some ps =>
    if ps.length ≠ next.length then next
    else
      let s := min 0.98 (max 0 smoothing)
      let a := 1 - s
      List.zipWith (fun p q => (⟨p.x + (q.x - p.x) * a, p.y + (q.y - p.y) * a⟩ : Point2))
        ps next

/-- `dist(a, b)` (`Math.hypot` of the coordinate differences). -/
def dist (a b : Point2) : ℝ :=
  Real.sqrt ((a.x - b.x) * (a.x - b.x) + (a.y - b.y) * (a.y - b.y))

/-- `screenToWorld(p)`. -/
def screenToWorld (env : Env) (cam : Camera2D) (p : Point2) : Point2 :=
  ⟨(p.x - env.width / 2) / cam.zoom + cam.centerWorld.x,
   (p.y - env.height / 2) / cam.zoom + cam.centerWorld.y⟩

/-- `floorY()`: the floor line in world coordinates. -/
def floorY (env : Env) (cam : Camera2D) (st : Settings) : ℝ :=
  (screenToWorld env cam ⟨0, env.height⟩).y - st.floorHeight / cam.zoom

/-- `toScreenPoint(lm)` (mirrored horizontally). -/
def toScreenPoint (env : Env) (lm : Point2) : Point2 :=
  ⟨(1 - lm.x) * env.width, lm.y * env.height⟩

/-- Replace the element at an index (identity when out of range); models
in-place mutation of one slot of a JavaScript array. -/
def modifyIdx : List α → ℕ → (α → α) → List α
  | [], _, _ => []
  | a :: rest, 0, f => f a :: rest
  | a :: rest, n + 1, f => a :: modifyIdx rest n f

/-- Update the first element satisfying the predicate; models mutating the
object returned by `Array.prototype.find`. -/
def updateFirst (p : α → Bool) (f : α → α) : List α → List α
  | [] => []
  | a :: rest => if p a then f a :: rest else a :: updateFirst p f rest

/-- Association lookup in the `handCollisionIgnoreUntil` map (keyed by
body id × hand index). -/
def ignoreLookup (m : List ((ℕ × ℕ) × ℝ)) (bodyId handIndex : ℕ) : Option ℝ :=
  (m.find? (fun e => e.1.1 == bodyId && e.1.2 == handIndex)).map (fun e => e.2)

/-- `setHandCollisionIgnore(bodyId, handIndex, untilMs)`. -/
def setHandCollisionIgnore (m : List ((ℕ × ℕ) × ℝ)) (bodyId handIndex : ℕ)
    (untilMs : ℝ) : List ((ℕ × ℕ) × ℝ) :=
  ((bodyId, handIndex), untilMs) ::
    m.filter (fun e => !(e.1.1 == bodyId && e.1.2 == handIndex))

/-- `shouldIgnoreHandCollision(bodyId, handIndex, nowMs)`. -/
def shouldIgnoreHandCollision (m : List ((ℕ × ℕ) × ℝ)) (bodyId handIndex : ℕ)
    (nowMs : ℝ) : Prop :=
  ∃ u, ignoreLookup m bodyId handIndex = some u ∧ nowMs < u

/-- `grabbedIds()`: ids currently grabbed by some hand. -/
def grabbedIds (hands : List HandState) : List ℕ :=
  hands.filterMap (fun h => h.grabActiveId)

/-- The `grabController` map built at the start of `stepPhysics`: the first
hand index whose `grabActiveId` is this body and whose pinch pointer is
live. -/
def grabControllerOf (hands : List HandState) (bodyId : ℕ) : Option ℕ :=
  hands.findIdx? (fun h => h.grabActiveId == some bodyId && h.pointer.pinch.isSome)

/-- `getBodyById(id)`. -/
def getBodyById (bodies : List PhysicsBody) : Option ℕ → Option PhysicsBody
  | none => none
  | some bid => bodies.find? (fun b => b.id == bid)

/-- `isBodyGrabbedByOtherHand(bodyId, handIndex)`. -/
def isBodyGrabbedByOtherHand (hands : List HandState) (bodyId handIndex : ℕ) : Prop :=
  ∃ j h, j ≠ handIndex ∧ hands.get? j = some h ∧ h.grabActiveId = some bodyId

/-- `bodyPickDistance(b, p)`: signed distance to a circle's surface, distance
to the nearest point of an axis-aligned box. -/
def bodyPickDistance (b : PhysicsBody) (p : Point2) : ℝ :=
  match b.shape with
  | .circle r => dist b.pos p - r
  | .box w h =>
    let dx := max (|p.x - b.pos.x| - w / 2) 0
    let dy := max (|p.y - b.pos.y| - h / 2) 0
    Real.sqrt (dx * dx + dy * dy)

/-- The candidate-search loop of `tryStartGrabForHand`, one iteration per
body: keep the current best (body, pick distance) pair, replacing it when an
eligible body (not grabbed by a different hand) is within the grab radius
and strictly closer than the current best. -/
def grabSearchAux (hands : List HandState) (handIndex : ℕ) (pinchW : Point2) (R : ℝ)
    (acc : Option (PhysicsBody × ℝ)) : List PhysicsBody → Option (PhysicsBody × ℝ)
  | [] => acc
  | b :: rest =>
    grabSearchAux hands handIndex pinchW R
      (if isBodyGrabbedByOtherHand hands b.id handIndex then acc
       else
         let d := bodyPickDistance b pinchW
         if d < R ∧ acc.elim True (fun p => d < p.2) then some (b, d) else acc) rest

/-- The whole candidate search of `tryStartGrabForHand` (loop started with
no best candidate). -/
def grabSearch (hands : List HandState) (handIndex : ℕ) (pinchW : Point2) (R : ℝ)
    (bodies : List PhysicsBody) : Option (PhysicsBody × ℝ) :=
  grabSearchAux hands handIndex pinchW R none bodies

/-- `tryStartGrabForHand(handIndex)`. -/
def tryStartGrabForHand (env : Env) (s : EngineState) (handIndex : ℕ) : EngineState :=
  match s.hands.get? handIndex with
  | none => s
  | some hs =>
    if hs.pointer.pinch = none ∨ hs.grabActiveId ≠ none then s
    else
      let hs1 := { hs with throwSamples := [] }
      let pinchW := screenToWorld env s.cam (hs.pointer.pinch.getD default)
      let best := grabSearch s.hands handIndex pinchW
        (s.settings.grabRadius / s.cam.zoom) s.bodies
      let hs2 := match best with
        | some p => { hs1 with grabActiveId := some p.1.id }
        | none => hs1
      { s with hands := modifyIdx s.hands handIndex (fun _ => hs2) }

/-- The released body's new velocity computed inside `endGrabForHand`: the
base velocity is the robust sample average when at least `throwMinSamples`
samples were collected (else the hand's smoothed pinch velocity); it is
scaled by `throwScale`, magnitude-clamped to `maxThrowSpeed`, blended into
the body's current velocity with `throwBlend`, and the blend is clamped to
`maxThrowSpeed` again. -/
def releaseVelocity (st : Settings) (hs : HandState) (b : PhysicsBody) : Point2 :=
  let baseVel :=
    if CONFIG.physics.throwMinSamples ≤ hs.throwSamples.length then
      robustAverageVelocity hs.throwSamples CONFIG.physics.maxThrowSpeed
    else hs.pointer.pinchVel
  let throwVel := clampVecMag
    ⟨baseVel.x * st.throwScale, baseVel.y * st.throwScale⟩
    CONFIG.physics.maxThrowSpeed
  let k := clamp CONFIG.physics.throwBlend 0 1
  let blended : Point2 := ⟨lerp b.vel.x throwVel.x k, lerp b.vel.y throwVel.y k⟩
  clampVecMag blended CONFIG.physics.maxThrowSpeed

/-- `endGrabForHand(handIndex)`: release any grabbed body with a throw. -/
def endGrabForHand (s : EngineState) (handIndex : ℕ) (now : ℝ) : EngineState :=
  match s.hands.get? handIndex with
  | none => s
  | some hs =>
    let hs1 := { hs with grabActiveId := none, throwSamples := [] }
    match getBodyById s.bodies hs.grabActiveId with
    | none => { s with hands := modifyIdx s.hands handIndex (fun _ => hs1) }
    | some b =>
      { s with
        bodies := updateFirst (fun bb => bb.id == b.id)
          (fun bb => { bb with vel := releaseVelocity s.settings hs b }) s.bodies,
        hands := modifyIdx s.hands handIndex (fun _ => hs1),
        ignoreUntil := setHandCollisionIgnore s.ignoreUntil b.id handIndex
          (now + CONFIG.physics.throwHandIgnoreMs) }

/-- The per-hand state reset performed by the `onResults` branch for a hand
slot with no landmarks in the current frame (everything except the
`endGrabForHand` call, which follows it). -/
def clearHandTransient (hs : HandState) : HandState :=
  { hs with
    lastLandmarksPx := none
    pinchPosPx := none
    isPinching := false
    isGrasping := false
    palmPosPx := none
    grabPosPx := none
    pointer := { pinch := none, prevPinch := none, pinchVel := ⟨0, 0⟩, lastPinchT := 0 }
    throwSamples := []
    colliders := []
    prevColliderPos := [] }

/-- The full hand-missing branch of `onResults`: clear the transient hand
state, then release any grab through `endGrabForHand`. -/
def processHandMissing (s : EngineState) (i : ℕ) (now : ℝ) : EngineState :=
  endGrabForHand { s with hands := modifyIdx s.hands i clearHandTransient } i now

/-- The pinch distance computed by `onResults`: the minimum of the
normalized-landmark thumb/index distance and the screen-normalized fallback
distance. -/
def pinchDistance (env : Env) (lms : List Point2) : ℝ :=
  let pts := lms.map (toScreenPoint env)
  let thumbRaw := pts.getD 4 default
  let indexRaw := pts.getD 8 default
  let dPx := Real.sqrt ((thumbRaw.x - indexRaw.x) * (thumbRaw.x - indexRaw.x)
    + (thumbRaw.y - indexRaw.y) * (thumbRaw.y - indexRaw.y))
  let l4 := lms.getD 4 default
  let l8 := lms.getD 8 default
  let dNorm := Real.sqrt ((l4.x - l8.x) * (l4.x - l8.x) + (l4.y - l8.y) * (l4.y - l8.y))
  let minDim := max 1 (min env.width env.height)
  min dNorm (dPx / minDim)

/-- The hysteresis pinch classifier of `onResults`:
`pinchNow = prevPinching ? d < CONFIG.pinchEnd : d < CONFIG.pinchStart`. -/
def pinchNext (prevPinching : Bool) (d : ℝ) : Bool :=
  if prevPinching then (if d < CONFIG.pinchEnd then true else false)
  else (if d < CONFIG.pinchStart then true else false)

/-- Iterated pinch classification over a sequence of per-frame distances. -/
def pinchRun (init : Bool) (ds : List ℝ) : Bool :=
  ds.foldl pinchNext init

/-- The circle-circle branch of `resolveBodyCollisions` for one pair: apply
positional separation weighted by inverse mass ratio and `grabbedBias`, then
a normal impulse (restitution = min of the pair) and a clamped tangential
friction impulse, both computed from the pre-impulse relative velocity. -/
def resolveCircleCircle (bias : ℝ) (a : PhysicsBody) (ra : ℝ) (b : PhysicsBody)
    (rb : ℝ) : PhysicsBody × PhysicsBody :=
  let dx := b.pos.x - a.pos.x
  let dy := b.pos.y - a.pos.y
  let d := Real.sqrt (dx * dx + dy * dy)
  let minD := ra + rb
  if 0.0001 < d ∧ d < minD then
    let nx := dx / d
    let ny := dy / d
    let pen := minD - d
    let totalMass := a.mass + b.mass
    let moveA := pen * (b.mass / totalMass) * bias
    let moveB := pen * (a.mass / totalMass) * bias
    let aPos : Point2 := ⟨a.pos.x - nx * moveA, a.pos.y - ny * moveA⟩
    let bPos : Point2 := ⟨b.pos.x + nx * moveB, b.pos.y + ny * moveB⟩
    let rvx := b.vel.x - a.vel.x
    let rvy := b.vel.y - a.vel.y
    let van := rvx * nx + rvy * ny
    if van < 0 then
      let e := min a.restitution b.restitution
      let jImp := (-(1 + e) * van) / (1 / a.mass + 1 / b.mass)
      let impX := jImp * nx * bias
      let impY := jImp * ny * bias
      let tx := -ny
      let ty := nx
      let vt := rvx * tx + rvy * ty
      let mu := (a.friction + b.friction) * 0.5
      let jt := -vt / (1 / a.mass + 1 / b.mass)
      let jtClamped := max (-jImp * mu) (min (jImp * mu) jt)
      let fX := jtClamped * tx * bias
      let fY := jtClamped * ty * bias
      ({ a with
         pos := aPos
         vel := ⟨a.vel.x - impX / a.mass - fX / a.mass,
                 a.vel.y - impY / a.mass - fY / a.mass⟩ },
       { b with
         pos := bPos
         vel := ⟨b.vel.x + impX / b.mass + fX / b.mass,
                 b.vel.y + impY / b.mass + fY / b.mass⟩ })
    else ({ a with pos := aPos }, { b with pos := bPos })
  else (a, b)

/-- The box-box (AABB) branch of `resolveBodyCollisions` for one pair. -/
def resolveBoxBox (bias : ℝ) (a : PhysicsBody) (aw ah : ℝ) (b : PhysicsBody)
    (bw bh : ℝ) : PhysicsBody × PhysicsBody :=
  let ax1 := a.pos.x - aw / 2
  let ax2 := a.pos.x + aw / 2
  let ay1 := a.pos.y - ah / 2
  let ay2 := a.pos.y + ah / 2
  let bx1 := b.pos.x - bw / 2
  let bx2 := b.pos.x + bw / 2
  let by1 := b.pos.y - bh / 2
  let by2 := b.pos.y + bh / 2
  if ax1 < bx2 ∧ ax2 > bx1 ∧ ay1 < by2 ∧ ay2 > by1 then
    let overlapX := min (ax2 - bx1) (bx2 - ax1)
    let overlapY := min (ay2 - by1) (by2 - ay1)
    let nx := if overlapX < overlapY then (if a.pos.x < b.pos.x then (-1 : ℝ) else 1) else 0
    let ny := if overlapX < overlapY then (0 : ℝ) else (if a.pos.y < b.pos.y then -1 else 1)
    let pen := if overlapX < overlapY then overlapX else overlapY
    let totalMass := a.mass + b.mass
    let moveA := pen * (b.mass / totalMass) * bias
    let moveB := pen * (a.mass / totalMass) * bias
    let aPos : Point2 := ⟨a.pos.x + nx * moveA, a.pos.y + ny * moveA⟩
    let bPos : Point2 := ⟨b.pos.x - nx * moveB, b.pos.y - ny * moveB⟩
    let rvx := b.vel.x - a.vel.x
    let rvy := b.vel.y - a.vel.y
    let van := rvx * nx + rvy * ny
    if van < 0 then
      let e := min a.restitution b.restitution
      let jImp := (-(1 + e) * van) / (1 / a.mass + 1 / b.mass)
      let impX := jImp * nx * bias
      let impY := jImp * ny * bias
      let tx := -ny
      let ty := nx
      let vt := rvx * tx + rvy * ty
      let mu := (a.friction + b.friction) * 0.5
      let jt := -vt / (1 / a.mass + 1 / b.mass)
      let jtClamped := max (-jImp * mu) (min (jImp * mu) jt)
      let fX := jtClamped * tx * bias
      let fY := jtClamped * ty * bias
      ({ a with
         pos := aPos
         vel := ⟨a.vel.x - impX / a.mass - fX / a.mass,
                 a.vel.y - impY / a.mass - fY / a.mass⟩ },
       { b with
         pos := bPos
         vel := ⟨b.vel.x + impX / b.mass + fX / b.mass,
                 b.vel.y + impY / b.mass + fY / b.mass⟩ })
    else ({ a with pos := aPos }, { b with pos := bPos })
  else (a, b)

/-- The circle-box branch of `resolveBodyCollisions` for one pair (first
argument is the circle).  The source's `isFinite` fallback is dead code
because `d = sqrt(max(d2, 1e-9)) > 0`, so it is not modelled. -/
def resolveCircleBox (bias : ℝ) (circle : PhysicsBody) (r : ℝ) (box : PhysicsBody)
    (bw bh : ℝ) : PhysicsBody × PhysicsBody :=
  let hw := bw / 2
  let hh := bh / 2
  let closestX := max (box.pos.x - hw) (min circle.pos.x (box.pos.x + hw))
  let closestY := max (box.pos.y - hh) (min circle.pos.y (box.pos.y + hh))
  let dx := circle.pos.x - closestX
  let dy := circle.pos.y - closestY
  let d2 := dx * dx + dy * dy
  if d2 < r * r then
    let d := Real.sqrt (max d2 1e-9)
    let nx := dx / d
    let ny := dy / d
    let pen := r - d
    let totalMass := circle.mass + box.mass
    let moveC := pen * (box.mass / totalMass) * bias
    let moveB := pen * (circle.mass / totalMass) * bias
    let cPos : Point2 := ⟨circle.pos.x + nx * moveC, circle.pos.y + ny * moveC⟩
    let bPos : Point2 := ⟨box.pos.x - nx * moveB, box.pos.y - ny * moveB⟩
    let rvx := box.vel.x - circle.vel.x
    let rvy := box.vel.y - circle.vel.y
    let van := rvx * nx + rvy * ny
    if van < 0 then
      let e := min circle.restitution box.restitution
      let jImp := (-(1 + e) * van) / (1 / circle.mass + 1 / box.mass)
      let impX := jImp * nx * bias
      let impY := jImp * ny * bias
      let tx := -ny
      let ty := nx
      let vt := rvx * tx + rvy * ty
      let mu := (circle.friction + box.friction) * 0.5
      let jt := -vt / (1 / circle.mass + 1 / box.mass)
      let jtClamped := max (-jImp * mu) (min (jImp * mu) jt)
      let fX := jtClamped * tx * bias
      let fY := jtClamped * ty * bias
      ({ circle with
         pos := cPos
         vel := ⟨circle.vel.x - impX / circle.mass - fX / circle.mass,
                 circle.vel.y - impY / circle.mass - fY / circle.mass⟩ },
       { box with
         pos := bPos
         vel := ⟨box.vel.x + impX / box.mass + fX / box.mass,
                 box.vel.y + impY / box.mass + fY / box.mass⟩ })
    else ({ circle with pos := cPos }, { box with pos := bPos })
  else (circle, box)

/-- One pair of `resolveBodyCollisions`, dispatched on the two shapes as in
the source (the circle-box branch identifies which participant is the
circle). -/
def resolvePair (bias : ℝ) (a b : PhysicsBody) : PhysicsBody × PhysicsBody :=
  match a.shape, b.shape with
  | .circle ra, .circle rb => resolveCircleCircle bias a ra b rb
  | .box aw ah, .box bw bh => resolveBoxBox bias a aw ah b bw bh
  | .circle ra, .box bw bh => resolveCircleBox bias a ra b bw bh
  | .box aw ah, .circle rb =>
    let p := resolveCircleBox bias b rb a aw ah
    (p.2, p.1)

/-- One (i, j) iteration of the all-pairs loop of `resolveBodyCollisions`,
including the `grabbedBias` selection (0.6 when either participant is
currently grabbed, 1.0 otherwise). -/
def pairStep (grabbed : List ℕ) (bs : List PhysicsBody) (ij : ℕ × ℕ) :
    List PhysicsBody :=
  match bs.get? ij.1, bs.get? ij.2 with
  | some a, some b =>
    let bias := if a.id ∈ grabbed ∨ b.id ∈ grabbed then (0.6 : ℝ) else 1
    let p := resolvePair bias a b
    (bs.set ij.1 p.1).set ij.2 p.2
  | _, _ => bs

/-- All index pairs (i, j) with i < j < n, in the loop order of the source
(outer index ascending, inner index from i+1). -/
def allPairs (n : ℕ) : List (ℕ × ℕ) :=
  ((List.range n).map (fun i => (List.range (n - i - 1)).map (fun k => (i, i + 1 + k)))).flatten

/-- One call to `resolveBodyCollisions`: fold the pair resolution over every
index pair. -/
def resolveBodyCollisions (grabbed : List ℕ) (bs : List PhysicsBody) :
    List PhysicsBody :=
  (allPairs bs.length).foldl (pairStep grabbed) bs

/-- A fixed-position scene collider (`StaticCollider` in `engine.ts`). -/
inductive StaticCollider where
  | circle (pos : Point2) (r restitution friction : ℝ)
  | box (pos : Point2) (w h restitution friction : ℝ)

/-- `resolveBodyVsStatic(b, s)`.  Both `isFinite` fallbacks on the contact
normal are dead code in exact arithmetic (`d = sqrt(max(d2, 1e-9)) > 0`) and
are not modelled.  Unlike `resolveBodyCollisions`, the tangential friction
here reads the body's velocity after the normal impulse was applied. -/
def resolveBodyVsStatic (s : StaticCollider) (b : PhysicsBody) : PhysicsBody :=
  match s, b.shape with
  | .circle spos sr se sf, .circle br =>
    let dx := b.pos.x - spos.x
    let dy := b.pos.y - spos.y
    let d2 := dx * dx + dy * dy
    let minD := br + sr
    if minD * minD ≤ d2 then b
    else
      let d := Real.sqrt (max d2 1e-9)
      let nx := dx / d
      let ny := dy / d
      let pen := minD - d
      let pos1 : Point2 := ⟨b.pos.x + nx * pen, b.pos.y + ny * pen⟩
      let van := b.vel.x * nx + b.vel.y * ny
      if van < 0 then
        let e := min b.restitution se
        let j := -(1 + e) * van
        let v1 : Point2 := ⟨b.vel.x + j * nx, b.vel.y + j * ny⟩
        let tx := -ny
        let ty := nx
        let vt := v1.x * tx + v1.y * ty
        let mu := (b.friction + sf) * 0.5
        { b with
          pos := pos1
          vel := ⟨v1.x - vt * tx * mu * 0.12, v1.y - vt * ty * mu * 0.12⟩ }
      else { b with pos := pos1 }
  | .circle spos sr se sf, .box bw bh =>
    let hw := bw / 2
    let hh := bh / 2
    let closestX := max (b.pos.x - hw) (min spos.x (b.pos.x + hw))
    let closestY := max (b.pos.y - hh) (min spos.y (b.pos.y + hh))
    let dx := spos.x - closestX
    let dy := spos.y - closestY
    let d2 := dx * dx + dy * dy
    if sr * sr ≤ d2 then b
    else
      let d := Real.sqrt (max d2 1e-9)
      let nx := -dx / d
      let ny := -dy / d
      let pen := sr - d
      let pos1 : Point2 := ⟨b.pos.x + nx * pen, b.pos.y + ny * pen⟩
      let van := b.vel.x * nx + b.vel.y * ny
      if van < 0 then
        let e := min b.restitution se
        let j := -(1 + e) * van
        let v1 : Point2 := ⟨b.vel.x + j * nx, b.vel.y + j * ny⟩
        let tx := -ny
        let ty := nx
        let vt := v1.x * tx + v1.y * ty
        let mu := (b.friction + sf) * 0.5
        { b with
          pos := pos1
          vel := ⟨v1.x - vt * tx * mu * 0.12, v1.y - vt * ty * mu * 0.12⟩ }
      else { b with pos := pos1 }
  | .box spos sw sh se sf, .circle r =>
    let hw := sw / 2
    let hh := sh / 2
    let x1 := spos.x - hw
    let x2 := spos.x + hw
    let y1 := spos.y - hh
    let y2 := spos.y + hh
    let closestX := max x1 (min b.pos.x x2)
    let closestY := max y1 (min b.pos.y y2)
    let dx := b.pos.x - closestX
    let dy := b.pos.y - closestY
    let d2 := dx * dx + dy * dy
    if r * r ≤ d2 then b
    else
      let d := Real.sqrt (max d2 1e-9)
      let nx := dx / d
      let ny := dy / d
      let pen := r - d
      let pos1 : Point2 := ⟨b.pos.x + nx * pen, b.pos.y + ny * pen⟩
      let van := b.vel.x * nx + b.vel.y * ny
      if van < 0 then
        let e := min b.restitution se
        let j := -(1 + e) * van
        let v1 : Point2 := ⟨b.vel.x + j * nx, b.vel.y + j * ny⟩
        let tx := -ny
        let ty := nx
        let vt := v1.x * tx + v1.y * ty
        let mu := (b.friction + sf) * 0.5
        { b with
          pos := pos1
          vel := ⟨v1.x - vt * tx * mu * 0.12, v1.y - vt * ty * mu * 0.12⟩ }
      else { b with pos := pos1 }
  | .box spos sw sh se sf, .box bw bh =>
    let hw := sw / 2
    let hh := sh / 2
    let x1 := spos.x - hw
    let x2 := spos.x + hw
    let y1 := spos.y - hh
    let y2 := spos.y + hh
    let bx1 := b.pos.x - bw / 2
    let bx2 := b.pos.x + bw / 2
    let by1 := b.pos.y - bh / 2
    let by2 := b.pos.y + bh / 2
    if ¬(bx1 < x2 ∧ bx2 > x1 ∧ by1 < y2 ∧ by2 > y1) then b
    else
      let overlapX := min (bx2 - x1) (x2 - bx1)
      let overlapY := min (by2 - y1) (y2 - by1)
      if overlapX < overlapY then
        let nx := if b.pos.x < spos.x then (-1 : ℝ) else 1
        { b with
          pos := ⟨b.pos.x + nx * overlapX, b.pos.y⟩
          vel := ⟨(if b.vel.x * nx < 0 then -b.vel.x * min b.restitution se else b.vel.x),
                  b.vel.y * (1 - ((b.friction + sf) * 0.5) * 0.04)⟩ }
      else
        let ny := if b.pos.y < spos.y then (-1 : ℝ) else 1
        { b with
          pos := ⟨b.pos.x, b.pos.y + ny * overlapY⟩
          vel := ⟨b.vel.x * (1 - ((b.friction + sf) * 0.5) * 0.04),
                  (if b.vel.y * ny < 0 then -b.vel.y * min b.restitution se else b.vel.y)⟩ }

/-- The sensor band of the hoop rig. -/
@[ext]
structure HoopSensor where
  x1 : ℝ
  x2 : ℝ
  yTop : ℝ
  yBottom : ℝ

/-- The hoop rig returned by `getHoopRig`. -/
structure HoopRig where
  colliders : List StaticCollider
  rimCenter : Point2
  rimR : ℝ
  sensor : HoopSensor

/-- `getHoopRig()`: screen-anchored backboard, rim pieces and score sensor. -/
def getHoopRig (env : Env) (cam : Camera2D) : HoopRig :=
  let rimCenterS : Point2 :=
    ⟨clamp (env.width - 420) 160 (env.width - 160), clamp 220 120 (env.height - 220)⟩
  let rimCenter := screenToWorld env cam rimCenterS
  let rimR := 42 / cam.zoom
  let rimThickness := 10 / cam.zoom
  let backboardW := 18 / cam.zoom
  let backboardH := 140 / cam.zoom
  let backboard : StaticCollider := .box
    ⟨rimCenter.x + rimR + backboardW * 0.6, rimCenter.y - 40 / cam.zoom⟩
    backboardW backboardH CONFIG.physics.hoopRestitution CONFIG.physics.hoopFriction
  let rimLeft : StaticCollider := .circle ⟨rimCenter.x - rimR, rimCenter.y⟩
    (rimThickness * 0.9) CONFIG.physics.hoopRestitution CONFIG.physics.hoopFriction
  let rimRight : StaticCollider := .circle ⟨rimCenter.x + rimR, rimCenter.y⟩
    (rimThickness * 0.9) CONFIG.physics.hoopRestitution CONFIG.physics.hoopFriction
  let rimFront : StaticCollider := .circle ⟨rimCenter.x, rimCenter.y⟩
    (rimThickness * 0.85) CONFIG.physics.hoopRestitution CONFIG.physics.hoopFriction
  let rimBar : StaticCollider := .box ⟨rimCenter.x, rimCenter.y - rimThickness * 0.35⟩
    (rimR * 2.05) (rimThickness * 0.6)
    CONFIG.physics.hoopRestitution CONFIG.physics.hoopFriction
  let sensorW := rimR * 1.6
  let sensorH := 44 / cam.zoom
  { colliders := [backboard, rimLeft, rimRight, rimFront, rimBar]
    rimCenter := rimCenter
    rimR := rimR
    sensor := { x1 := rimCenter.x - sensorW / 2, x2 := rimCenter.x + sensorW / 2,
                yTop := rimCenter.y + rimThickness * 0.6,
                yBottom := rimCenter.y + sensorH } }

/-- Association lookup in the `playground.lastBodyY` map. -/
def lastYLookup (m : List (ℕ × ℝ)) (bodyId : ℕ) : Option ℝ :=
  (m.find? (fun e => e.1 == bodyId)).map (fun e => e.2)

/-- `Map.set` on the `playground.lastBodyY` map. -/
def lastYSet (m : List (ℕ × ℝ)) (bodyId : ℕ) (y : ℝ) : List (ℕ × ℝ) :=
  (bodyId, y) :: m.filter (fun e => !(e.1 == bodyId))

/-- One of the two collider passes of `resolveHoopCollisions`: each body is
resolved against every rig collider in order. -/
def hoopBodiesPass (rig : HoopRig) (bs : List PhysicsBody) : List PhysicsBody :=
  bs.map (fun b => rig.colliders.foldl (fun b s => resolveBodyVsStatic s b) b)

/-- The scoring sweep of `resolveHoopCollisions`: track each circle's last
vertical position and count downward crossings of the sensor band. -/
def hoopScoring (rig : HoopRig) (bs : List PhysicsBody) (lastY : List (ℕ × ℝ))
    (score : ℕ) : List (ℕ × ℝ) × ℕ :=
  bs.foldl (fun acc b =>
    match b.shape with
    | .box _ _ => acc
    | .circle _ =>
      let prevY := lastYLookup acc.1 b.id
      let m1 := lastYSet acc.1 b.id b.pos.y
      match prevY with
      | none => (m1, acc.2)
      | some py =>
        if py < rig.sensor.yTop ∧ rig.sensor.yBottom < b.pos.y
            ∧ rig.sensor.x1 ≤ b.pos.x ∧ b.pos.x ≤ rig.sensor.x2
        then (m1, acc.2 + 1) else (m1, acc.2)) (lastY, score)

/-- One body against one kinematic hand collider (the two shape branches of
the inner loop of `resolveHandCollisions`); the velocity impulse treats the
hand as infinite mass and the tangential friction uses the pre-impulse
relative velocity. -/
def resolveBodyVsHand (b : PhysicsBody) (c : HandCollider) : PhysicsBody :=
  match b.shape with
  | .circle r =>
    let dx := b.pos.x - c.pos.x
    let dy := b.pos.y - c.pos.y
    let d2 := dx * dx + dy * dy
    let minD := r + c.r
    if minD * minD ≤ d2 then b
    else
      let d := Real.sqrt (max d2 1e-9)
      let nx := dx / d
      let ny := dy / d
      let pen := minD - d
      let pos1 : Point2 := ⟨b.pos.x + nx * pen, b.pos.y + ny * pen⟩
      let rvx := b.vel.x - c.vel.x
      let rvy := b.vel.y - c.vel.y
      let van := rvx * nx + rvy * ny
      if van < 0 then
        let e := min CONFIG.physics.handRestitution b.restitution
        let j := -(1 + e) * van
        let tx := -ny
        let ty := nx
        let vt := rvx * tx + rvy * ty
        let mu := b.friction
        { b with
          pos := pos1
          vel := ⟨b.vel.x + j * nx - vt * tx * mu * 0.15,
                  b.vel.y + j * ny - vt * ty * mu * 0.15⟩ }
      else { b with pos := pos1 }
  | .box bw bh =>
    let hw := bw / 2
    let hh := bh / 2
    let closestX := max (b.pos.x - hw) (min c.pos.x (b.pos.x + hw))
    let closestY := max (b.pos.y - hh) (min c.pos.y (b.pos.y + hh))
    let dx := c.pos.x - closestX
    let dy := c.pos.y - closestY
    let d2 := dx * dx + dy * dy
    if c.r * c.r ≤ d2 then b
    else
      let d := Real.sqrt (max d2 1e-9)
      let nx := -dx / d
      let ny := -dy / d
      let pen := c.r - d
      let pos1 : Point2 := ⟨b.pos.x + nx * pen, b.pos.y + ny * pen⟩
      let rvx := b.vel.x - c.vel.x
      let rvy := b.vel.y - c.vel.y
      let van := rvx * nx + rvy * ny
      if van < 0 then
        let e := min CONFIG.physics.handRestitution b.restitution
        let j := -(1 + e) * van
        let tx := -ny
        let ty := nx
        let vt := rvx * tx + rvy * ty
        let mu := b.friction
        { b with
          pos := pos1
          vel := ⟨b.vel.x + j * nx - vt * tx * mu * 0.15,
                  b.vel.y + j * ny - vt * ty * mu * 0.15⟩ }
      else { b with pos := pos1 }

/-- One call to `resolveHandCollisions(nowMs, grabController)`: every body
against every hand collider, skipping the hand currently controlling the
body and body/hand pairs inside their post-throw ignore window. -/
def resolveHandCollisions (nowMs : ℝ) (hands : List HandState)
    (ignoreUntil : List ((ℕ × ℕ) × ℝ)) (bs : List PhysicsBody) : List PhysicsBody :=
  if ¬CONFIG.physics.handCollisions then bs
  else
    let colliders := (hands.map (fun h => h.colliders)).flatten
    if colliders.length = 0 then bs
    else
      bs.map (fun b =>
        let controllerIdx := grabControllerOf hands b.id
        colliders.foldl (fun b c =>
          if controllerIdx = some c.handIndex then b
          else if shouldIgnoreHandCollision ignoreUntil b.id c.handIndex nowMs then b
          else resolveBodyVsHand b c) b)

/-- The forces-and-integration stage of `stepPhysics` for one body: a
grabbed body's velocity is blended toward the hand-follow target (no gravity
and no air drag), a free body receives gravity accumulation and
multiplicative air drag; both then integrate position. -/
def integrateBody (env : Env) (s : EngineState) (dt : ℝ) (b : PhysicsBody) :
    PhysicsBody :=
  match grabControllerOf s.hands b.id with
  | some hi =>
    let hs := s.hands.getD hi default
    let target := screenToWorld env s.cam (hs.pointer.pinch.getD default)
    let errX := target.x - b.pos.x
    let errY := target.y - b.pos.y
    let desired := clampVecMag
      ⟨hs.pointer.pinchVel.x + errX * CONFIG.physics.grabPosGain,
       hs.pointer.pinchVel.y + errY * CONFIG.physics.grabPosGain⟩
      CONFIG.physics.maxGrabSpeed
    let k := clamp CONFIG.physics.grabFollow 0 1
    let v : Point2 := ⟨lerp b.vel.x desired.x k, lerp b.vel.y desired.y k⟩
    { b with vel := v, pos := ⟨b.pos.x + v.x * dt, b.pos.y + v.y * dt⟩ }
  | none =>
    let vy := b.vel.y + s.settings.gravity * dt
    let drag := max 0 (1 - s.settings.airDrag * dt)
    let v : Point2 := ⟨b.vel.x * drag, vy * drag⟩
    { b with vel := v, pos := ⟨b.pos.x + v.x * dt, b.pos.y + v.y * dt⟩ }

/-- The floor-and-walls constraint stage of `stepPhysics` for one body:
clamp below the floor line (reflecting downward velocity by restitution and
damping horizontal velocity by friction) and inside the left/right world
bounds (bouncing with a fixed 0.6 coefficient). -/
def applyFloorWalls (fy leftX rightX : ℝ) (b : PhysicsBody) : PhysicsBody :=
  match b.shape with
  | .circle r =>
    let b1 :=
      if fy < b.pos.y + r then
        { b with
          pos := ⟨b.pos.x, fy - r⟩
          vel := ⟨b.vel.x * (1 - b.friction * 0.08),
                  if 0 < b.vel.y then -b.vel.y * b.restitution else b.vel.y⟩ }
      else b
    let b2 :=
      if b1.pos.x - r < leftX then
        { b1 with
          pos := ⟨leftX + r, b1.pos.y⟩
          vel := ⟨if b1.vel.x < 0 then -b1.vel.x * 0.6 else b1.vel.x, b1.vel.y⟩ }
      else b1
    if rightX < b2.pos.x + r then
      { b2 with
        pos := ⟨rightX - r, b2.pos.y⟩
        vel := ⟨if 0 < b2.vel.x then -b2.vel.x * 0.6 else b2.vel.x, b2.vel.y⟩ }
    else b2
  | .box w h =>
    let halfH := h / 2
    let halfW := w / 2
    let b1 :=
      if fy < b.pos.y + halfH then
        { b with
          pos := ⟨b.pos.x, fy - halfH⟩
          vel := ⟨b.vel.x * (1 - b.friction * 0.08),
                  if 0 < b.vel.y then -b.vel.y * b.restitution else b.vel.y⟩ }
      else b
    let b2 :=
      if b1.pos.x - halfW < leftX then
        { b1 with
          pos := ⟨leftX + halfW, b1.pos.y⟩
          vel := ⟨if b1.vel.x < 0 then -b1.vel.x * 0.6 else b1.vel.x, b1.vel.y⟩ }
      else b1
    if rightX < b2.pos.x + halfW then
      { b2 with
        pos := ⟨rightX - halfW, b2.pos.y⟩
        vel := ⟨if 0 < b2.vel.x then -b2.vel.x * 0.6 else b2.vel.x, b2.vel.y⟩ }
    else b2

/-- `stepPhysics(dt)`: forces and integration, two kinematic-hand passes,
the hoop pass (two collider sweeps plus scoring), floor/wall constraints,
then two body-body collision passes. -/
def stepPhysics (env : Env) (nowMs : ℝ) (s : EngineState) (dt : ℝ) : EngineState :=
  let fy := floorY env s.cam s.settings
  let leftX := (screenToWorld env s.cam ⟨0, 0⟩).x
  let rightX := (screenToWorld env s.cam ⟨env.width, 0⟩).x
  let bodies1 := s.bodies.map (integrateBody env s dt)
  let bodies2 := resolveHandCollisions nowMs s.hands s.ignoreUntil
    (resolveHandCollisions nowMs s.hands s.ignoreUntil bodies1)
  let rig := getHoopRig env s.cam
  let afterHoop :=
    if CONFIG.physics.hoopEnabled then
      let bodies3 := hoopBodiesPass rig (hoopBodiesPass rig bodies2)
      let scoring := hoopScoring rig bodies3 s.lastBodyY s.score
      (bodies3, scoring.1, scoring.2)
    else (bodies2, s.lastBodyY, s.score)
  let bodies4 := afterHoop.1.map (applyFloorWalls fy leftX rightX)
  let grabbed := grabbedIds s.hands
  let bodies5 := resolveBodyCollisions grabbed (resolveBodyCollisions grabbed bodies4)
  { s with bodies := bodies5, lastBodyY := afterHoop.2.1, score := afterHoop.2.2 }

/-- All per-hand sensor updates of the `onResults` branch for a hand with
landmarks in the current frame: pinch anchor, palm center, hysteresis pinch
classification, smoothed render landmarks, pointer/velocity update, throw
sample collection and kinematic collider construction.  The grab-edge calls
(`tryStartGrabForHand` / `endGrabForHand`) follow in `handPresent`.  The two
`performance.now()` reads of the source are modelled by the single `now`
argument. -/
def handFrameUpdate (env : Env) (cam : Camera2D) (i : ℕ) (lms : List Point2)
    (now : ℝ) (hs : HandState) : HandState :=
  let pts := lms.map (toScreenPoint env)
  let thumbRaw := pts.getD 4 default
  let indexRaw := pts.getD 8 default
  let pinchPos : Point2 := ⟨(thumbRaw.x + indexRaw.x) / 2, (thumbRaw.y + indexRaw.y) / 2⟩
  let palmIds : List ℕ := [0, 5, 9, 13, 17]
  let palmPos : Point2 :=
    ⟨((palmIds.map (fun pid => (pts.getD pid default).x)).sum) / (palmIds.length : ℝ),
     ((palmIds.map (fun pid => (pts.getD pid default).y)).sum) / (palmIds.length : ℝ)⟩
  let prevPinching := hs.isPinching
  let d := pinchDistance env lms
  let pinchNow := pinchNext prevPinching d
  let grabPosPx : Option Point2 := if pinchNow then some pinchPos else none
  let renderSmoothing : ℝ := if pinchNow then 0.15 else CONFIG.smoothing
  let landmarks := smoothPoints hs.lastLandmarksPx pts renderSmoothing
  let dt := if 0 < hs.pointer.lastPinchT then (now - hs.pointer.lastPinchT) / 1000 else 0
  let prevPinch := hs.pointer.pinch
  let pinch := grabPosPx
  let minDt : ℝ := 1 / 120
  let maxDt : ℝ := 1 / 15
  let inBand := minDt ≤ dt ∧ dt ≤ maxDt
  let velAndSamples : Point2 × List Sample :=
    match prevPinch, pinch with
    | some a0, some c0 =>
      if inBand then
        let a := screenToWorld env cam a0
        let c := screenToWorld env cam c0
        let inst : Point2 := ⟨(c.x - a.x) / dt, (c.y - a.y) / dt⟩
        let instClamped := clampVecMag inst CONFIG.physics.maxThrowSpeed
        let alpha := clamp CONFIG.physics.throwSmoothing 0 1
        let pv : Point2 := ⟨lerp hs.pointer.pinchVel.x instClamped.x alpha,
                            lerp hs.pointer.pinchVel.y instClamped.y alpha⟩
        let samples := (hs.throwSamples ++ [(⟨instClamped, now⟩ : Sample)]).filter
          (fun smp => decide (now - CONFIG.physics.throwWindowMs ≤ smp.t))
        (pv, samples)
      else
        (⟨lerp hs.pointer.pinchVel.x 0 0.25, lerp hs.pointer.pinchVel.y 0 0.25⟩,
         hs.throwSamples)
    | _, _ =>
      (⟨lerp hs.pointer.pinchVel.x 0 0.25, lerp hs.pointer.pinchVel.y 0 0.25⟩,
       hs.throwSamples)
  let palmW := screenToWorld env cam palmPos
  let pointIds : List ℕ := [5, 9, 13, 17, 0]
  let pointsW := pointIds.map (fun pid => screenToWorld env cam (pts.getD pid default))
  let palmR := CONFIG.physics.handPalmRadius / cam.zoom
  let pointR := CONFIG.physics.handPointRadius / cam.zoom
  let nextPos := palmW :: pointsW
  let vels : List Point2 :=
    if inBand ∧ hs.prevColliderPos.length = nextPos.length then
      List.zipWith (fun (n p : Point2) => (⟨(n.x - p.x) / dt, (n.y - p.y) / dt⟩ : Point2))
        nextPos hs.prevColliderPos
    else nextPos.map (fun _ => ⟨0, 0⟩)
  let mkCol := fun (k : ℕ) (r : ℝ) =>
    ({ handIndex := i, pos := nextPos.getD k default,
       vel := clampVecMag (vels.getD k default) CONFIG.physics.maxThrowSpeed,
       r := r } : HandCollider)
  { hs with
    pinchPosPx := some pinchPos
    palmPosPx := some palmPos
    grabPosPx := grabPosPx
    lastLandmarksPx := some landmarks
    pointer := { pinch := pinch, prevPinch := prevPinch,
                 pinchVel := velAndSamples.1, lastPinchT := now }
    throwSamples := velAndSamples.2
    colliders := [mkCol 0 palmR, mkCol 1 pointR, mkCol 2 pointR,
                  mkCol 3 pointR, mkCol 4 pointR, mkCol 5 pointR]
    prevColliderPos := nextPos
    isPinching := pinchNow
    isGrasping := false }

/-- The full `onResults` branch for a hand slot with landmarks: sensor
update, then the grab edge transition — pinch-start fires
`tryStartGrabForHand`, pinch-end fires `endGrabForHand`. -/
def handPresent (env : Env) (s : EngineState) (i : ℕ) (lms : List Point2)
    (now : ℝ) : EngineState :=
  match s.hands.get? i with
  | none => s
  | some hs =>
    let prevPinching := hs.isPinching
    let pinchNow := pinchNext prevPinching (pinchDistance env lms)
    let s1 : EngineState :=
      { s with hands := modifyIdx s.hands i (handFrameUpdate env s.cam i lms now) }
    if pinchNow = true ∧ prevPinching = false then tryStartGrabForHand env s1 i
    else if pinchNow = false ∧ prevPinching = true then endGrabForHand s1 i now
    else s1

/-- `addBody('circle')` (also the circle case of `addBody('mixed')`): push a
new circle body with the next fresh id.  The random draws of the source
(radius, spawn offsets, initial horizontal velocity) are passed as
parameters. -/
def addCircle (env : Env) (s : EngineState) (r ox oy vx : ℝ) : EngineState :=
  let spawnW := screenToWorld env s.cam ⟨env.width / 2, 80⟩
  { s with
    nextId := s.nextId + 1
    bodies := s.bodies ++
      [{ id := s.nextId
         shape := .circle r
         pos := ⟨spawnW.x + ox, spawnW.y + oy⟩
         vel := ⟨vx, 0⟩
         restitution := s.settings.restitution
         friction := s.settings.friction
         mass := 1 }] }

/-- `addBody('box')` (also the box case of `addBody('mixed')`): push a new
box body with the next fresh id; randomness passed as parameters. -/
def addBox (env : Env) (s : EngineState) (w h ox oy vx : ℝ) : EngineState :=
  let spawnW := screenToWorld env s.cam ⟨env.width / 2, 80⟩
  { s with
    nextId := s.nextId + 1
    bodies := s.bodies ++
      [{ id := s.nextId
         shape := .box w h
         pos := ⟨spawnW.x + ox, spawnW.y + oy⟩
         vel := ⟨vx, 0⟩
         restitution := s.settings.restitution * 0.8
         friction := s.settings.friction
         mass := 1.2 }] }

/-- `resetScene()`: clear all bodies, reset the id counter to 1, null every
hand's grab, clear the collision-ignore map and the playground counters. -/
def resetScene (s : EngineState) : EngineState :=
  { s with
    bodies := []
    nextId := 1
    hands := s.hands.map (fun h => { h with grabActiveId := none })
    ignoreUntil := []
    score := 0
    lastBodyY := [] }

/-- `applySettings(next)`: live-update zoom, gravity, floor height,
bounciness and friction, applying bounciness/friction retroactively to all
bodies. -/
def applySettings (s : EngineState) (zoom gravity floorHeight bounciness friction : ℝ) :
    EngineState :=
  { s with
    settings := { s.settings with
      zoom := zoom
      gravity := gravity
      floorHeight := floorHeight
      restitution := bounciness
      friction := friction }
    cam := { s.cam with zoom := zoom }
    bodies := s.bodies.map (fun b =>
      { b with restitution := bounciness, friction := friction }) }

/-- `onWheel`: multiplicative zoom step clamped to [0.5, 1.6]. -/
def onWheel (s : EngineState) (zoomOut : Bool) : EngineState :=
  let z := clamp (s.cam.zoom * (if zoomOut then 0.95 else 1.05)) 0.5 1.6
  { s with cam := { s.cam with zoom := z }, settings := { s.settings with zoom := z } }

/-- `onResize`: clamp every body above the (recomputed) floor line. -/
def onResize (env : Env) (s : EngineState) : EngineState :=
  let fy := floorY env s.cam s.settings
  { s with bodies := s.bodies.map (fun b =>
      match b.shape with
      | .circle r => { b with pos := ⟨b.pos.x, min b.pos.y (fy - r)⟩ }
      | .box _ h => { b with pos := ⟨b.pos.x, min b.pos.y (fy - h / 2)⟩ }) }

/-- The initial settings object of `createEngine`. -/
def defaultSettings : Settings :=
  { zoom := 1
    gravity := CONFIG.physics.gravity
    airDrag := CONFIG.physics.airDrag
    floorHeight := CONFIG.physics.floorHeight
    grabRadius := CONFIG.physics.grabRadius
    throwScale := CONFIG.physics.throwScale
    restitution := 0.45
    friction := 0.55 }

/-- The engine state right after `createEngine` / `mount` (mount runs
`resetScene()` on this state, which is a no-op on it). -/
def initialState : EngineState :=
  { nextId := 1
    bodies := []
    hands := [initialHand, initialHand]
    ignoreUntil := []
    score := 0
    lastBodyY := []
    settings := defaultSettings
    cam := { zoom := 1, centerWorld := ⟨0, 0⟩ } }

/-- One externally triggered engine transition: spawning (UI button or voice
command), scene reset (UI or voice), settings update, mouse-wheel zoom,
window resize, one physics substep of the render tick, or one per-hand slot
of a detector callback (hand present or hand missing). -/
inductive Step : EngineState → EngineState → Prop where
  | spawnCircle (s : EngineState) (env : Env) (r ox oy vx : ℝ) :
      Step s (addCircle env s r ox oy vx)
  | spawnBox (s : EngineState) (env : Env) (w h ox oy vx : ℝ) :
      Step s (addBox env s w h ox oy vx)
  | reset (s : EngineState) : Step s (resetScene s)
  | tune (s : EngineState) (zoom gravity floorHeight bounciness friction : ℝ) :
      Step s (applySettings s zoom gravity floorHeight bounciness friction)
  | wheel (s : EngineState) (zoomOut : Bool) : Step s (onWheel s zoomOut)
  | resizeWin (s : EngineState) (env : Env) : Step s (onResize env s)
  | physics (s : EngineState) (env : Env) (now dt : ℝ) :
      Step s (stepPhysics env now s dt)
  | present (s : EngineState) (env : Env) (i : ℕ) (lms : List Point2) (now : ℝ) :
      Step s (handPresent env s i lms now)
  | missing (s : EngineState) (i : ℕ) (now : ℝ) :
      Step s (processHandMissing s i now)

/-- States reachable from the freshly mounted engine. -/
def Reachable (s : EngineState) : Prop :=
  Relation.ReflTransGen Step initialState s

/-- Grab exclusivity: no two distinct hand slots reference the same body. -/
def GrabExclusive (s : EngineState) : Prop :=
  ∀ i j hi hj bid, i ≠ j → s.hands.get? i = some hi → s.hands.get? j = some hj →
    hi.grabActiveId = some bid → hj.grabActiveId ≠ some bid

/-- Body-id bookkeeping invariant: ids are strictly increasing in creation
order (hence pairwise distinct among coexisting bodies) and all below the
`nextId` counter. -/
def BodyIdsOk (s : EngineState) : Prop :=
  (s.bodies.map (fun b => b.id)).Pairwise (· < ·) ∧ ∀ b ∈ s.bodies, b.id < s.nextId

/-! ### Concrete example states used by witnesses and counterexamples -/

/-- Concrete hand for the claim C10 witness: pinching, no grab, stale
throw-sample history. -/
def exC10hand : HandState :=
  { initialHand with
    pointer := { pinch := some ⟨100, 100⟩, prevPinch := none,
                 pinchVel := ⟨0, 0⟩, lastPinchT := 0 }
    isPinching := true
    throwSamples := [⟨⟨1, 2⟩, 3⟩] }

/-- Concrete engine state for the claim C10 witness: empty world. -/
def exC10 : EngineState :=
  { initialState with hands := [exC10hand, initialHand] }

/-- Concrete body for the claim C4 witness: a circle of radius 20 spawned at
the world origin. -/
def exC4body : PhysicsBody :=
  { id := 1, shape := .circle 20, pos := ⟨0, 0⟩, vel := ⟨0, 0⟩,
    restitution := 0.45, friction := 0.55, mass := 1 }

/-- Concrete hand for the claim C4 witness: pinch anchored at screen point
(400, 300), which maps to the world origin in an 800×600 window at zoom 1. -/
def exC4hand : HandState :=
  { initialHand with
    pointer := { pinch := some ⟨400, 300⟩, prevPinch := none,
                 pinchVel := ⟨0, 0⟩, lastPinchT := 0 }
    isPinching := true }

/-- Concrete engine state for the claim C4 witness. -/
def exC4 : EngineState :=
  { initialState with bodies := [exC4body], hands := [exC4hand, initialHand] }

/-- Concrete body for the claim C6 witness. -/
def exC6body : PhysicsBody :=
  { id := 1, shape := .circle 10, pos := ⟨0, 0⟩, vel := ⟨0, 0⟩,
    restitution := 0.45, friction := 0.55, mass := 1 }

/-- Concrete hand for the claim C6 witness: grabbing body 1 with a large
smoothed pinch velocity and no throw samples. -/
def exC6hand : HandState :=
  { initialHand with
    grabActiveId := some 1
    pointer := { pinch := some ⟨400, 300⟩, prevPinch := none,
                 pinchVel := ⟨4000, 0⟩, lastPinchT := 0 } }

/-- Concrete engine state for the claim C6 witness. -/
def exC6 : EngineState :=
  { initialState with bodies := [exC6body], hands := [exC6hand, initialHand] }

/-- Concrete body for the claim C1 counterexample: grabbed, moving with
velocity (100, 200). -/
def exC1body : PhysicsBody :=
  { id := 1, shape := .circle 10, pos := ⟨0, 0⟩, vel := ⟨100, 200⟩,
    restitution := 0.45, friction := 0.55, mass := 1 }

/-- Concrete hand for the claim C1 counterexample: grabbing body 1, last
smoothed pinch velocity (1000, 0), two retained throw samples of velocity
(1000, 0) taken at t = 20 ms. -/
def exC1hand : HandState :=
  { initialHand with
    grabActiveId := some 1
    isPinching := true
    pointer := { pinch := some ⟨400, 300⟩, prevPinch := none,
                 pinchVel := ⟨1000, 0⟩, lastPinchT := 20 }
    throwSamples := [⟨⟨1000, 0⟩, 20⟩, ⟨⟨1000, 0⟩, 20⟩] }

/-- Concrete engine state for the claim C1 counterexample. -/
def exC1 : EngineState :=
  { initialState with bodies := [exC1body], hands := [exC1hand, initialHand] }

/-- First body of the claim C5 witness: circle moving right at 5 px/s. -/
def exC5a : PhysicsBody :=
  { id := 1, shape := .circle 10, pos := ⟨0, 0⟩, vel := ⟨5, 0⟩,
    restitution := 1, friction := 0, mass := 1 }

/-- Second body of the claim C5 witness: overlapping circle moving left at
3 px/s. -/
def exC5b : PhysicsBody :=
  { id := 2, shape := .circle 10, pos := ⟨16, 0⟩, vel := ⟨-3, 0⟩,
    restitution := 1, friction := 0, mass := 1 }

/-- First body of the claim C7 counterexample: a circle just above the floor
line (y = 160 in an 800×600 window at zoom 1) falling at 120 px/s, so it
crosses the floor during a 1/60 s step. -/
def exC7a : PhysicsBody :=
  { id := 1, shape := .circle 10, pos := ⟨200, 159⟩, vel := ⟨0, 120⟩,
    restitution := 1, friction := 0, mass := 1 }

/-- Second body of the claim C7 counterexample: a resting circle slightly
above the first, so the post-floor collision pass pushes the first body back
below the floor line. -/
def exC7b : PhysicsBody :=
  { id := 2, shape := .circle 10, pos := ⟨200, 146⟩, vel := ⟨0, 0⟩,
    restitution := 1, friction := 0, mass := 1 }

/-- Concrete engine state for the claim C7 counterexample (default settings,
restitution 1 and friction 0 applied to the bodies, no hands tracked). -/
def exC7 : EngineState :=
  { initialState with bodies := [exC7a, exC7b] }

/-- `exC7a` after the integration stage of one 1/60 s step (gravity 2200,
air drag 0.02): it has crossed the floor line y = 160. -/
def exC7aInt : PhysicsBody :=
  { id := 1, shape := .circle 10, pos := ⟨200, 8726953 / 54000⟩,
    vel := ⟨0, 140953 / 900⟩, restitution := 1, friction := 0, mass := 1 }

/-- `exC7b` after the integration stage of one 1/60 s step. -/
def exC7bInt : PhysicsBody :=
  { id := 2, shape := .circle 10, pos := ⟨200, 7916989 / 54000⟩,
    vel := ⟨0, 32989 / 900⟩, restitution := 1, friction := 0, mass := 1 }

/-- `exC7aInt` after the floor constraint: clamped to the floor with
reflected velocity. -/
def exC7aFloor : PhysicsBody :=
  { id := 1, shape := .circle 10, pos := ⟨200, 150⟩,
    vel := ⟨0, -140953 / 900⟩, restitution := 1, friction := 0, mass := 1 }

/-- First body at the end of the step: the body-body collision pass pushed
it back below the floor line (pos.y + 10 ≈ 168.3 > 160) with downward
velocity. -/
def exC7aFin : PhysicsBody :=
  { id := 1, shape := .circle 10, pos := ⟨200, 17096989 / 108000⟩,
    vel := ⟨0, 32989 / 900⟩, restitution := 1, friction := 0, mass := 1 }

/-- Second body at the end of the step. -/
def exC7bFin : PhysicsBody :=
  { id := 2, shape := .circle 10, pos := ⟨200, 14936989 / 108000⟩,
    vel := ⟨0, -140953 / 900⟩, restitution := 1, friction := 0, mass := 1 }

/-! ### Basic lemmas about the list helpers -/

lemma modifyIdx_get?_self (l : List α) (i : ℕ) (f : α → α) :
    (modifyIdx l i f).get? i = (l.get? i).map f := by
  induction l generalizing i with
  | nil => simp [modifyIdx]
  | cons a t ih =>
    cases i with
    | zero => simp [modifyIdx]
    | succ n => simpa [modifyIdx] using ih n

lemma modifyIdx_get?_ne (l : List α) (i j : ℕ) (f : α → α) (h : j ≠ i) :
    (modifyIdx l i f).get? j = l.get? j := by
  induction l generalizing i j with
  | nil => simp [modifyIdx]
  | cons a t ih =>
    cases i with
    | zero =>
      cases j with
      | zero => exact absurd rfl h
      | succ m => simp [modifyIdx]
    | succ n =>
      cases j with
      | zero => simp [modifyIdx]
      | succ m => simpa [modifyIdx] using ih n m (fun hc => h (by cases hc; rfl))

lemma updateFirst_find? (p : α → Bool) (f : α → α) (l : List α)
    (hf : ∀ a, p (f a) = p a) :
    (updateFirst p f l).find? p = (l.find? p).map f := by
  induction l with
  | nil => simp [updateFirst]
  | cons a t ih =>
    by_cases hp : p a = true
    · simp [updateFirst, hp, List.find?_cons, hf]
    · have hp2 : p a = false := by simpa using hp
      simp [updateFirst, hp2, List.find?_cons, ih]

/-! ### Claim C2 — pinch hysteresis -/

lemma pinchNext_true_of_lt {d : ℝ} (h : d < CONFIG.pinchEnd) :
    pinchNext true d = true := by
  simp [pinchNext, h]

lemma pinchRun_true (ds : List ℝ) (h : ∀ d ∈ ds, d < CONFIG.pinchEnd) :
    pinchRun true ds = true := by
  induction ds with
  | nil => rfl
  | cons a t ih =>
    have ha : pinchNext true a = true := pinchNext_true_of_lt (h a (by simp))
    have : pinchRun true (a :: t) = pinchRun (pinchNext true a) t := rfl
    rw [this, ha]
    exact ih (fun d hd => h d (by simp [hd]))

/-- Claim C2, counterexample to the stated release threshold: at distance
exactly `pinchEnd`, a currently-pinching hand transitions to not-pinching,
although the distance is not strictly greater than `pinchEnd`.  The
classifier leaves the pinching state whenever the distance is `≥ pinchEnd`,
not only when it is `> pinchEnd`. -/
theorem claim2_counterexample :
    pinchNext true CONFIG.pinchEnd = false ∧ ¬ CONFIG.pinchEnd > CONFIG.pinchEnd := by
  refine ⟨?_, lt_irrefl _⟩
  simp [pinchNext]

/-- Claim C2 (amended): the pinch classifier is a hysteresis state machine:
from not-pinching it enters pinching exactly when the distance is
`< pinchStart`; from pinching it leaves exactly when the distance is
`≥ pinchEnd` (rather than `> pinchEnd` as the claim stated); the thresholds
satisfy `pinchStart < pinchEnd`; and for any distance sequence whose
elements all stay strictly below `pinchEnd` — in particular one that drops
below `pinchStart` and then stays in `[pinchStart, pinchEnd)` — the
classifier never toggles back to not-pinching. -/
theorem claim2_hysteresis :
    CONFIG.pinchStart < CONFIG.pinchEnd ∧
    (∀ d : ℝ, pinchNext false d = true ↔ d < CONFIG.pinchStart) ∧
    (∀ d : ℝ, pinchNext true d = false ↔ CONFIG.pinchEnd ≤ d) ∧
    (∀ ds : List ℝ, (∀ d ∈ ds, d < CONFIG.pinchEnd) → pinchRun true ds = true) ∧
    (∀ d0 : ℝ, ∀ ds : List ℝ, d0 < CONFIG.pinchStart →
      (∀ d ∈ ds, d < CONFIG.pinchEnd) → pinchRun false (d0 :: ds) = true) := by
  refine ⟨by norm_num [CONFIG.pinchStart, CONFIG.pinchEnd], ?_, ?_, pinchRun_true, ?_⟩
  · intro d
    by_cases h : d < CONFIG.pinchStart <;> simp [pinchNext, h]
  · intro d
    by_cases h : d < CONFIG.pinchEnd
    · simp [pinchNext, h, not_le.mpr h]
    · simp [pinchNext, h, not_lt.mp h]
  · intro d0 ds h0 hds
    have hstart : pinchNext false d0 = true := by simp [pinchNext, h0]
    have : pinchRun false (d0 :: ds) = pinchRun (pinchNext false d0) ds := rfl
    rw [this, hstart]
    exact pinchRun_true ds hds

/-- Claim C2 witness: a concrete run — the distance drops below `pinchStart`
(0.05) and then stays between `pinchStart` and `pinchEnd` (0.06, 0.074); the
classifier is pinching at the end of the sequence. -/
theorem claim2_witness : pinchRun false [0.05, 0.06, 0.074] = true := by
  refine claim2_hysteresis.2.2.2.2 0.05 [0.06, 0.074]
    (by norm_num [CONFIG.pinchStart]) ?_
  intro d hd
  simp only [List.mem_cons, List.not_mem_nil, or_false] at hd
  rcases hd with h | h <;> rw [h] <;> norm_num [CONFIG.pinchEnd]

/-! ### Lemmas about the grab candidate search -/

lemma grabSearchAux_sound (hands : List HandState) (hi : ℕ) (pw : Point2) (R : ℝ) :
    ∀ (bodies : List PhysicsBody) (acc : Option (PhysicsBody × ℝ))
      (p : PhysicsBody × ℝ),
      grabSearchAux hands hi pw R acc bodies = some p →
      acc = some p ∨
        (p.1 ∈ bodies ∧ ¬ isBodyGrabbedByOtherHand hands p.1.id hi ∧
         p.2 = bodyPickDistance p.1 pw ∧ p.2 < R) := by
  intro bodies
  induction bodies with
  | nil => intro acc p h; exact Or.inl h
  | cons b rest ih =>
    intro acc p h
    simp only [grabSearchAux] at h
    rcases ih _ p h with hacc | hrest
    · by_cases hg : isBodyGrabbedByOtherHand hands b.id hi
      · rw [if_pos hg] at hacc; exact Or.inl hacc
      · rw [if_neg hg] at hacc
        by_cases hc : bodyPickDistance b pw < R ∧
            acc.elim True (fun q => bodyPickDistance b pw < q.2)
        · rw [if_pos hc] at hacc
          cases hacc
          exact Or.inr ⟨by simp, hg, rfl, hc.1⟩
        · rw [if_neg hc] at hacc; exact Or.inl hacc
    · exact Or.inr ⟨by simp [hrest.1], hrest.2.1, hrest.2.2⟩

lemma grabSearchAux_mono (hands : List HandState) (hi : ℕ) (pw : Point2) (R : ℝ) :
    ∀ (bodies : List PhysicsBody) (acc : Option (PhysicsBody × ℝ))
      (q : PhysicsBody × ℝ), acc = some q →
      ∃ p, grabSearchAux hands hi pw R acc bodies = some p ∧ p.2 ≤ q.2 := by
  intro bodies
  induction bodies with
  | nil => intro acc q hq; exact ⟨q, by simp [grabSearchAux, hq], le_refl _⟩
  | cons b rest ih =>
    intro acc q hq
    simp only [grabSearchAux]
    by_cases hg : isBodyGrabbedByOtherHand hands b.id hi
    · rw [if_pos hg]; exact ih acc q hq
    · rw [if_neg hg]
      by_cases hc : bodyPickDistance b pw < R ∧
          acc.elim True (fun r => bodyPickDistance b pw < r.2)
      · rw [if_pos hc]
        obtain ⟨p, hp1, hp2⟩ := ih (some (b, bodyPickDistance b pw))
          (b, bodyPickDistance b pw) rfl
        have hlt : bodyPickDistance b pw < q.2 := by
          have := hc.2; rw [hq] at this; exact this
        exact ⟨p, hp1, le_trans hp2 (le_of_lt hlt)⟩
      · rw [if_neg hc]; exact ih acc q hq

lemma grabSearchAux_min (hands : List HandState) (hi : ℕ) (pw : Point2) (R : ℝ) :
    ∀ (bodies : List PhysicsBody) (acc : Option (PhysicsBody × ℝ))
      (b : PhysicsBody), b ∈ bodies →
      ¬ isBodyGrabbedByOtherHand hands b.id hi → bodyPickDistance b pw < R →
      ∃ p, grabSearchAux hands hi pw R acc bodies = some p ∧
        p.2 ≤ bodyPickDistance b pw := by
  intro bodies
  induction bodies with
  | nil => intro acc b hb; exact absurd hb (List.not_mem_nil b)
  | cons c rest ih =>
    intro acc b hb hg hR
    rcases List.mem_cons.mp hb with hbc | hbm
    · subst hbc
      simp only [grabSearchAux]
      rw [if_neg hg]
      cases acc with
      | none =>
        rw [if_pos (by simpa using hR)]
        exact grabSearchAux_mono hands hi pw R rest _ (b, bodyPickDistance b pw) rfl
      | some q =>
        by_cases hlt : bodyPickDistance b pw < q.2
        · rw [if_pos ⟨hR, by simpa using hlt⟩]
          exact grabSearchAux_mono hands hi pw R rest _ (b, bodyPickDistance b pw) rfl
        · rw [if_neg (by simpa [hR] using hlt)]
          obtain ⟨p, hp1, hp2⟩ :=
            grabSearchAux_mono hands hi pw R rest (some q) q rfl
          exact ⟨p, hp1, le_trans hp2 (not_lt.mp hlt)⟩
    · simp only [grabSearchAux]
      exact ih _ b hbm hg hR

/-- The search never returns a body grabbed by another hand, and any
returned candidate is a body of the world within the grab radius at its own
pick distance. -/
lemma grabSearch_sound (hands : List HandState) (hi : ℕ) (pw : Point2) (R : ℝ)
    (bodies : List PhysicsBody) (p : PhysicsBody × ℝ)
    (h : grabSearch hands hi pw R bodies = some p) :
    p.1 ∈ bodies ∧ ¬ isBodyGrabbedByOtherHand hands p.1.id hi ∧
      p.2 = bodyPickDistance p.1 pw ∧ p.2 < R := by
  rcases grabSearchAux_sound hands hi pw R bodies none p h with hacc | hres
  · exact absurd hacc (by simp)
  · exact hres

/-- If some eligible body lies within the grab radius, the search succeeds
and its result is at most that body's pick distance. -/
lemma grabSearch_min (hands : List HandState) (hi : ℕ) (pw : Point2) (R : ℝ)
    (bodies : List PhysicsBody) (b : PhysicsBody) (hb : b ∈ bodies)
    (hg : ¬ isBodyGrabbedByOtherHand hands b.id hi)
    (hR : bodyPickDistance b pw < R) :
    ∃ p, grabSearch hands hi pw R bodies = some p ∧
      p.2 ≤ bodyPickDistance b pw :=
  grabSearchAux_min hands hi pw R bodies none b hb hg hR

/-! ### Claim C10 — grab attempts clear the throw-sample history -/

/-- Claim C10: a pinch-start grab attempt (`tryStartGrabForHand` with a live
pinch and no current grab) empties the hand's rolling throw-velocity sample
history before searching, so the history is empty afterwards even when the
acquisition fails; the body list is never modified by the attempt, and when
no eligible body lies within the (zoom-scaled) grab radius the hand's
`grabActiveId` remains `none`. -/
theorem claim10_grab_attempt_clears_samples (env : Env) (s : EngineState) (i : ℕ)
    (hs : HandState) (hhs : s.hands.get? i = some hs)
    (hp : hs.pointer.pinch ≠ none) (hg : hs.grabActiveId = none) :
    ∃ hs2, (tryStartGrabForHand env s i).hands.get? i = some hs2 ∧
      hs2.throwSamples = [] ∧
      (tryStartGrabForHand env s i).bodies = s.bodies ∧
      ((¬ ∃ b ∈ s.bodies, ¬ isBodyGrabbedByOtherHand s.hands b.id i ∧
          bodyPickDistance b (screenToWorld env s.cam (hs.pointer.pinch.getD default))
            < s.settings.grabRadius / s.cam.zoom) →
        hs2.grabActiveId = none) := by
  have hguard : ¬(hs.pointer.pinch = none ∨ hs.grabActiveId ≠ none) := by
    simp [hp, hg]
  simp only [tryStartGrabForHand, hhs, if_neg hguard]
  cases hbest : grabSearch s.hands i
      (screenToWorld env s.cam (hs.pointer.pinch.getD default))
      (s.settings.grabRadius / s.cam.zoom) s.bodies with
  | none =>
    refine ⟨{ hs with throwSamples := [] }, ?_, ?_, ?_, fun _ => hg⟩
    · rw [modifyIdx_get?_self, hhs]
      rfl
    · trivial
    · trivial
  | some p =>
    refine ⟨{ hs with throwSamples := [], grabActiveId := some p.1.id }, ?_, ?_, ?_, ?_⟩
    · rw [modifyIdx_get?_self, hhs]
      rfl
    · trivial
    · trivial
    · intro hno
      obtain ⟨hmem, hng, hd, hR⟩ := grabSearch_sound _ _ _ _ _ _ hbest
      exact absurd ⟨p.1, hmem, hng, hd ▸ hR⟩ hno

/-- Claim C10 witness: concrete state — hand 0 pinching with a stale
throw-sample history and an empty world; the attempt clears the history,
leaves the body list empty and acquires nothing. -/
theorem claim10_witness :
    ∃ hs2, (tryStartGrabForHand ⟨800, 600⟩ exC10 0).hands.get? 0 = some hs2 ∧
      hs2.throwSamples = [] ∧
      (tryStartGrabForHand ⟨800, 600⟩ exC10 0).bodies = [] ∧
      hs2.grabActiveId = none := by
  obtain ⟨hs2, h1, h2, h3, h4⟩ :=
    claim10_grab_attempt_clears_samples ⟨800, 600⟩ exC10 0 exC10hand rfl
      (by simp [exC10hand]) rfl
  exact ⟨hs2, h1, h2, h3, h4 (by simp [exC10, initialState])⟩

/-! ### Claim C4 — grab acquisition selects the nearest eligible body -/

lemma dist_self (p : Point2) : dist p p = 0 := by
  simp [dist]

/-- Claim C4: on a pinch-start edge (live pinch, no current grab), grab
acquisition considers exactly the bodies not grabbed by a different hand:
(1) whenever some eligible body is within `grabRadius / zoom` of the
world-space pinch anchor, the hand acquires a body that is eligible, within
the radius, and of minimal pick distance among all eligible bodies;
(2) with no eligible candidate in radius, no grab occurs and the world is
untouched (no error); (3) in particular a pinch-start at a point coincident
with the center of the only spawned circle acquires that body immediately. -/
theorem claim4_grab_acquisition (env : Env) (s : EngineState) (i : ℕ)
    (hs : HandState) (p0 : Point2)
    (hhs : s.hands.get? i = some hs)
    (hp : hs.pointer.pinch = some p0) (hg : hs.grabActiveId = none) :
    (∀ b ∈ s.bodies, ¬ isBodyGrabbedByOtherHand s.hands b.id i →
      bodyPickDistance b (screenToWorld env s.cam p0)
          < s.settings.grabRadius / s.cam.zoom →
      ∃ hs2 bb, (tryStartGrabForHand env s i).hands.get? i = some hs2 ∧
        hs2.grabActiveId = some bb.id ∧ bb ∈ s.bodies ∧
        ¬ isBodyGrabbedByOtherHand s.hands bb.id i ∧
        bodyPickDistance bb (screenToWorld env s.cam p0)
          < s.settings.grabRadius / s.cam.zoom ∧
        (∀ c ∈ s.bodies, ¬ isBodyGrabbedByOtherHand s.hands c.id i →
          bodyPickDistance bb (screenToWorld env s.cam p0)
            ≤ bodyPickDistance c (screenToWorld env s.cam p0))) ∧
    ((¬ ∃ b ∈ s.bodies, ¬ isBodyGrabbedByOtherHand s.hands b.id i ∧
        bodyPickDistance b (screenToWorld env s.cam p0)
          < s.settings.grabRadius / s.cam.zoom) →
      ∃ hs2, (tryStartGrabForHand env s i).hands.get? i = some hs2 ∧
        hs2.grabActiveId = none ∧
        (tryStartGrabForHand env s i).bodies = s.bodies) ∧
    (∀ c r, s.bodies = [c] → c.shape = .circle r → 0 ≤ r →
      screenToWorld env s.cam p0 = c.pos →
      ¬ isBodyGrabbedByOtherHand s.hands c.id i →
      0 < s.settings.grabRadius / s.cam.zoom →
      ∃ hs2, (tryStartGrabForHand env s i).hands.get? i = some hs2 ∧
        hs2.grabActiveId = some c.id) := by
  have hguard : ¬(hs.pointer.pinch = none ∨ hs.grabActiveId ≠ none) := by
    simp [hp, hg]
  have main : ∀ b ∈ s.bodies, ¬ isBodyGrabbedByOtherHand s.hands b.id i →
      bodyPickDistance b (screenToWorld env s.cam p0)
          < s.settings.grabRadius / s.cam.zoom →
      ∃ hs2 bb, (tryStartGrabForHand env s i).hands.get? i = some hs2 ∧
        hs2.grabActiveId = some bb.id ∧ bb ∈ s.bodies ∧
        ¬ isBodyGrabbedByOtherHand s.hands bb.id i ∧
        bodyPickDistance bb (screenToWorld env s.cam p0)
          < s.settings.grabRadius / s.cam.zoom ∧
        (∀ c ∈ s.bodies, ¬ isBodyGrabbedByOtherHand s.hands c.id i →
          bodyPickDistance bb (screenToWorld env s.cam p0)
            ≤ bodyPickDistance c (screenToWorld env s.cam p0)) := by
    intro b hb hgb hub
    obtain ⟨p, hbest, hple⟩ := grabSearch_min s.hands i
      (screenToWorld env s.cam p0) (s.settings.grabRadius / s.cam.zoom)
      s.bodies b hb hgb hub
    obtain ⟨hmem, hng, hd, hR⟩ := grabSearch_sound _ _ _ _ _ _ hbest
    refine ⟨{ hs with throwSamples := [], grabActiveId := some p.1.id }, p.1,
      ?_, rfl, hmem, hng, hd ▸ hR, ?_⟩
    · simp only [tryStartGrabForHand, hhs, if_neg hguard]
      rw [hp]
      simp only [Option.getD_some, hbest]
      rw [modifyIdx_get?_self, hhs]
      rfl
    · intro c hc hgc
      by_cases hcR : bodyPickDistance c (screenToWorld env s.cam p0)
          < s.settings.grabRadius / s.cam.zoom
      · obtain ⟨p2, hbest2, hple2⟩ := grabSearch_min s.hands i
          (screenToWorld env s.cam p0) (s.settings.grabRadius / s.cam.zoom)
          s.bodies c hc hgc hcR
        rw [hbest] at hbest2
        cases hbest2
        exact hd ▸ hple2
      · exact le_trans (le_of_lt (hd ▸ hR)) (not_lt.mp hcR)
  refine ⟨main, ?_, ?_⟩
  · intro hno
    cases hbest : grabSearch s.hands i (screenToWorld env s.cam p0)
        (s.settings.grabRadius / s.cam.zoom) s.bodies with
    | none =>
      refine ⟨{ hs with throwSamples := [] }, ?_, hg, ?_⟩
      · simp only [tryStartGrabForHand, hhs, if_neg hguard]
        rw [hp]
        simp only [Option.getD_some, hbest]
        rw [modifyIdx_get?_self, hhs]
        rfl
      · simp only [tryStartGrabForHand, hhs, if_neg hguard]
    | some p =>
      obtain ⟨hmem, hng, hd, hR⟩ := grabSearch_sound _ _ _ _ _ _ hbest
      exact absurd ⟨p.1, hmem, hng, hd ▸ hR⟩ hno
  · intro c r hbodies hshape hr hpos hgc hradius
    have hpick : bodyPickDistance c (screenToWorld env s.cam p0)
        < s.settings.grabRadius / s.cam.zoom := by
      rw [hpos]
      simp only [bodyPickDistance, hshape, dist_self]
      linarith
    obtain ⟨hs2, bb, h1, h2, h3, _, _, _⟩ :=
      main c (by rw [hbodies]; simp) hgc hpick
    rw [hbodies] at h3
    simp only [List.mem_singleton] at h3
    subst h3
    exact ⟨hs2, h1, h2⟩

/-- Claim C4 witness: in an 800×600 window at zoom 1, a pinch at screen
point (400, 300) (world origin) coincides with the center of the only
spawned circle; the grab acquires it: hand 0's `grabActiveId` becomes 1. -/
theorem claim4_witness :
    ∃ hs2, (tryStartGrabForHand ⟨800, 600⟩ exC4 0).hands.get? 0 = some hs2 ∧
      hs2.grabActiveId = some 1 := by
  have hng : ¬ isBodyGrabbedByOtherHand exC4.hands exC4body.id 0 := by
    rintro ⟨j, h, hj, hget, hgrab⟩
    match j with
    | 0 => exact hj rfl
    | 1 =>
      have : h = initialHand := by
        simpa [exC4] using hget.symm
      rw [this] at hgrab
      simp [initialHand] at hgrab
    | (n + 2) => simp [exC4] at hget
  obtain ⟨hs2, h1, h2⟩ :=
    (claim4_grab_acquisition ⟨800, 600⟩ exC4 0 exC4hand ⟨400, 300⟩ rfl
      (by simp [exC4hand]) rfl).2.2 exC4body 20 rfl rfl (by norm_num)
      (by simp [screenToWorld, exC4, initialState, exC4body]; norm_num) hng
      (by simp [exC4, initialState, defaultSettings, CONFIG.physics.grabRadius])
  exact ⟨hs2, h1, h2⟩

/-! ### Claim C6 — release speed is clamped to maxThrowSpeed -/

lemma clampVecMag_mag_le (v : Point2) (M : ℝ) (h2 : 1e-12 < M * M) :
    (clampVecMag v M).x * (clampVecMag v M).x
      + (clampVecMag v M).y * (clampVecMag v M).y ≤ M * M := by
  simp only [clampVecMag]
  by_cases h : v.x * v.x + v.y * v.y ≤ M * M
  · rw [if_pos h]; exact h
  · rw [if_neg h]
    have hgt : M * M < v.x * v.x + v.y * v.y := not_le.mp h
    have hm2pos : 0 < v.x * v.x + v.y * v.y :=
      lt_trans (lt_trans (by norm_num : (0:ℝ) < 1e-12) h2) hgt
    have hmax : max (v.x * v.x + v.y * v.y) 1e-12 = v.x * v.x + v.y * v.y :=
      max_eq_left (le_of_lt (lt_trans h2 (not_le.mp h)))
    rw [hmax]
    have hsq : Real.sqrt (v.x * v.x + v.y * v.y) * Real.sqrt (v.x * v.x + v.y * v.y)
        = v.x * v.x + v.y * v.y := Real.mul_self_sqrt (le_of_lt hm2pos)
    have hspos : 0 < Real.sqrt (v.x * v.x + v.y * v.y) :=
      Real.sqrt_pos.mpr hm2pos
    have key : v.x * (M / Real.sqrt (v.x * v.x + v.y * v.y))
          * (v.x * (M / Real.sqrt (v.x * v.x + v.y * v.y)))
        + v.y * (M / Real.sqrt (v.x * v.x + v.y * v.y))
          * (v.y * (M / Real.sqrt (v.x * v.x + v.y * v.y)))
        = M * M := by
      field_simp
      nlinarith [hsq, hspos]
    rw [key]

lemma clampVecMag_norm_le (v : Point2) (M : ℝ) (hM : 0 ≤ M) (h2 : 1e-12 < M * M) :
    Real.sqrt ((clampVecMag v M).x * (clampVecMag v M).x
      + (clampVecMag v M).y * (clampVecMag v M).y) ≤ M := by
  have h := Real.sqrt_le_sqrt (clampVecMag_mag_le v M h2)
  rwa [show M * M = M ^ 2 by ring, Real.sqrt_sq hM] at h

/-- Claim C6: for every grab release with an existing grabbed body, whatever
the body's prior velocity and the collected samples, the released body's
velocity is the `releaseVelocity` pipeline (base velocity scaled by
`throwScale`, magnitude-clamped, blended by `throwBlend` into the existing
velocity, clamped again) and its resulting speed never exceeds
`maxThrowSpeed`. -/
theorem claim6_release_speed_clamped (s : EngineState) (i : ℕ) (now : ℝ)
    (hs : HandState) (bid : ℕ) (b : PhysicsBody)
    (hhs : s.hands.get? i = some hs) (hg : hs.grabActiveId = some bid)
    (hb : getBodyById s.bodies (some bid) = some b) :
    ∃ b2, getBodyById (endGrabForHand s i now).bodies (some bid) = some b2 ∧
      b2.vel = releaseVelocity s.settings hs b ∧
      Real.sqrt (b2.vel.x * b2.vel.x + b2.vel.y * b2.vel.y)
        ≤ CONFIG.physics.maxThrowSpeed := by
  have hbid : b.id = bid := by
    have := List.find?_some (by simpa [getBodyById] using hb)
    simpa using this
  subst hbid
  refine ⟨{ b with vel := releaseVelocity s.settings hs b }, ?_, rfl, ?_⟩
  · simp only [endGrabForHand, hhs, hg, hb]
    simp only [getBodyById]
    rw [updateFirst_find? (fun bb => bb.id == b.id)
      (fun bb => { bb with vel := releaseVelocity s.settings hs b }) s.bodies
      (fun a => rfl)]
    rw [show s.bodies.find? (fun bb => bb.id == b.id) = some b by
      simpa [getBodyById] using hb]
    rfl
  · have : ∃ w, releaseVelocity s.settings hs b
        = clampVecMag w CONFIG.physics.maxThrowSpeed := ⟨_, rfl⟩
    obtain ⟨w, hw⟩ := this
    simp only [hw]
    exact clampVecMag_norm_le w CONFIG.physics.maxThrowSpeed
      (by norm_num [CONFIG.physics.maxThrowSpeed])
      (by norm_num [CONFIG.physics.maxThrowSpeed])

/-- Claim C6 witness: concrete release — hand 0 releases body 1 while its
smoothed pinch velocity is (4000, 0) (so the scaled base velocity 5000
exceeds `maxThrowSpeed`); the released body's speed is at most 3600. -/
theorem claim6_witness :
    ∃ b2, getBodyById (endGrabForHand exC6 0 0).bodies (some 1) = some b2 ∧
      Real.sqrt (b2.vel.x * b2.vel.x + b2.vel.y * b2.vel.y)
        ≤ CONFIG.physics.maxThrowSpeed := by
  obtain ⟨b2, h1, _, h3⟩ :=
    claim6_release_speed_clamped exC6 0 0 exC6hand 1 exC6body rfl rfl
      (by simp [getBodyById, exC6, exC6body, List.find?])
  exact ⟨b2, h1, h3⟩

/-! ### Claim C1 — releasing a disappearing hand -/

/-- The body released by `endGrabForHand` gets exactly the
`releaseVelocity` pipeline velocity. -/
lemma endGrab_released_body (s : EngineState) (i : ℕ) (now : ℝ) (hs : HandState)
    (b : PhysicsBody) (hhs : s.hands.get? i = some hs)
    (hg : hs.grabActiveId = some b.id)
    (hb : getBodyById s.bodies (some b.id) = some b) :
    getBodyById (endGrabForHand s i now).bodies (some b.id)
      = some { b with vel := releaseVelocity s.settings hs b } := by
  simp only [endGrabForHand, hhs, hg, hb]
  simp only [getBodyById]
  rw [updateFirst_find? (fun bb => bb.id == b.id)
    (fun bb => { bb with vel := releaseVelocity s.settings hs b }) s.bodies
    (fun a => rfl)]
  rw [show s.bodies.find? (fun bb => bb.id == b.id) = some b by
    simpa [getBodyById] using hb]
  rfl

/-- `endGrabForHand` always nulls the hand's grab reference and empties its
sample history. -/
lemma endGrab_hand (s : EngineState) (i : ℕ) (now : ℝ) (hs : HandState)
    (hhs : s.hands.get? i = some hs) :
    (endGrabForHand s i now).hands.get? i
      = some { hs with grabActiveId := none, throwSamples := [] } := by
  simp only [endGrabForHand, hhs]
  cases hfind : getBodyById s.bodies hs.grabActiveId with
  | none =>
    simp only
    rw [modifyIdx_get?_self, hhs]
    rfl
  | some b =>
    simp only
    rw [modifyIdx_get?_self, hhs]
    rfl

/-- With an empty sample history and a zero smoothed pinch velocity, the
release pipeline blends the body's velocity toward zero. -/
lemma releaseVelocity_no_samples (st : Settings) (hs : HandState) (b : PhysicsBody)
    (h0 : hs.throwSamples = []) (hv : hs.pointer.pinchVel = ⟨0, 0⟩) :
    releaseVelocity st hs b = clampVecMag
      ⟨lerp b.vel.x 0 (clamp CONFIG.physics.throwBlend 0 1),
       lerp b.vel.y 0 (clamp CONFIG.physics.throwBlend 0 1)⟩
      CONFIG.physics.maxThrowSpeed := by
  simp only [releaseVelocity, h0, hv, List.length_nil]
  rw [if_neg (by norm_num [CONFIG.physics.throwMinSamples])]
  have hz : clampVecMag ⟨(0 : ℝ) * st.throwScale, (0 : ℝ) * st.throwScale⟩
      CONFIG.physics.maxThrowSpeed = (⟨0, 0⟩ : Point2) := by
    simp only [zero_mul, clampVecMag]
    rw [if_pos (by norm_num [CONFIG.physics.maxThrowSpeed])]
  simp only [hz]

/-- Claim C1 (amended): when a tracked hand with an active grab disappears
from a frame, the transient per-hand state is cleared (pointer nulled, pinch
velocity zeroed, pinch flags false, samples and colliders emptied) and the
grab is released through the normal release path — but because the clearing
happens before `endGrabForHand`, the sample history is empty and the pinch
velocity is zero at release time, so the released body's velocity is its
previous velocity blended toward zero by `throwBlend` (and clamped), not a
throw based on the hand's last known velocity sample. -/
theorem claim1_missing_hand_release (s : EngineState) (i : ℕ) (now : ℝ)
    (hs : HandState) (bid : ℕ) (b : PhysicsBody)
    (hhs : s.hands.get? i = some hs) (hg : hs.grabActiveId = some bid)
    (hb : getBodyById s.bodies (some bid) = some b) :
    ∃ hs2 b2, (processHandMissing s i now).hands.get? i = some hs2 ∧
      hs2.grabActiveId = none ∧ hs2.pointer.pinch = none ∧
      hs2.pointer.pinchVel = ⟨0, 0⟩ ∧ hs2.isPinching = false ∧
      hs2.throwSamples = [] ∧ hs2.colliders = [] ∧
      getBodyById (processHandMissing s i now).bodies (some bid) = some b2 ∧
      b2.vel = clampVecMag
        ⟨lerp b.vel.x 0 (clamp CONFIG.physics.throwBlend 0 1),
         lerp b.vel.y 0 (clamp CONFIG.physics.throwBlend 0 1)⟩
        CONFIG.physics.maxThrowSpeed := by
  have hbid : b.id = bid := by
    have := List.find?_some (by simpa [getBodyById] using hb)
    simpa using this
  subst hbid
  have hhs2 : ({ s with hands := modifyIdx s.hands i clearHandTransient }
      : EngineState).hands.get? i = some (clearHandTransient hs) := by
    show (modifyIdx s.hands i clearHandTransient).get? i = _
    rw [modifyIdx_get?_self, hhs]
    rfl
  have hgc : (clearHandTransient hs).grabActiveId = some b.id := by
    simpa [clearHandTransient] using hg
  have hbc : getBodyById ({ s with hands := modifyIdx s.hands i clearHandTransient }
      : EngineState).bodies (some b.id) = some b := hb
  refine ⟨{ clearHandTransient hs with grabActiveId := none, throwSamples := [] },
    { b with vel := releaseVelocity s.settings (clearHandTransient hs) b },
    ?_, rfl, rfl, rfl, rfl, rfl, rfl, ?_, ?_⟩
  · simpa [processHandMissing] using
      endGrab_hand _ i now (clearHandTransient hs) hhs2
  · simpa [processHandMissing] using
      endGrab_released_body _ i now (clearHandTransient hs) b hhs2 hgc hbc
  · exact releaseVelocity_no_samples s.settings (clearHandTransient hs) b rfl rfl

lemma exC1_median_x :
    median ([(⟨⟨1000, 0⟩, 20⟩ : Sample), ⟨⟨1000, 0⟩, 20⟩].map (fun s => s.v.x))
      = 1000 := by
  norm_num [median, sortReals, insertSorted]

lemma exC1_median_y :
    median ([(⟨⟨1000, 0⟩, 20⟩ : Sample), ⟨⟨1000, 0⟩, 20⟩].map (fun s => s.v.y))
      = 0 := by
  norm_num [median, sortReals, insertSorted]

lemma exC1_rav :
    robustAverageVelocity [(⟨⟨1000, 0⟩, 20⟩ : Sample), ⟨⟨1000, 0⟩, 20⟩]
      CONFIG.physics.maxThrowSpeed = ⟨1000, 0⟩ := by
  simp only [robustAverageVelocity, exC1_median_x, exC1_median_y]
  norm_num [List.filter_cons, CONFIG.physics.maxThrowSpeed, clampVecMag,
    List.getD, Real.exp_zero]

lemma exC1_release_cleared :
    releaseVelocity exC1.settings (clearHandTransient exC1hand) exC1body
      = ⟨10, 20⟩ := by
  rw [releaseVelocity_no_samples _ _ _ rfl rfl]
  norm_num [clampVecMag, lerp, clamp, exC1body,
    CONFIG.physics.maxThrowSpeed, CONFIG.physics.throwBlend]

lemma exC1_release_direct :
    releaseVelocity exC1.settings exC1hand exC1body = ⟨1135, 20⟩ := by
  simp only [releaseVelocity]
  rw [if_pos (by norm_num [exC1hand, initialHand, CONFIG.physics.throwMinSamples])]
  rw [show exC1hand.throwSamples = [(⟨⟨1000, 0⟩, 20⟩ : Sample), ⟨⟨1000, 0⟩, 20⟩]
    from rfl]
  rw [exC1_rav]
  norm_num [clampVecMag, lerp, clamp, exC1body, exC1, initialState, defaultSettings,
    CONFIG.physics.maxThrowSpeed, CONFIG.physics.throwBlend, CONFIG.physics.throwScale]

/-- Claim C1 counterexample: hand 0 disappears while grabbing body 1; its
last known velocity sample (and smoothed pinch velocity) is (1000, 0), and
the body's velocity is (100, 200).  The hand-missing branch clears the
transient state before calling the release path, so the released body's
velocity becomes (10, 20) — exactly the zero-base-velocity blend
(1 − throwBlend)·(100, 200) — whereas the normal release path applied to the
hand's un-cleared state (using the retained samples) would give (1135, 20).
The throw after a disappearance is therefore based on a zero velocity, not
on the hand's last known velocity sample. -/
theorem claim1_counterexample :
    (∃ b2, getBodyById (processHandMissing exC1 0 1000).bodies (some 1) = some b2 ∧
      b2.vel = ⟨10, 20⟩) ∧
    (∃ b3, getBodyById (endGrabForHand exC1 0 1000).bodies (some 1) = some b3 ∧
      b3.vel = ⟨1135, 20⟩) ∧
    (⟨10, 20⟩ : Point2) ≠ (⟨1135, 20⟩ : Point2) := by
  have hhs2 : ({ exC1 with hands := modifyIdx exC1.hands 0 clearHandTransient }
      : EngineState).hands.get? 0 = some (clearHandTransient exC1hand) := rfl
  have part1 := endGrab_released_body
    ({ exC1 with hands := modifyIdx exC1.hands 0 clearHandTransient })
    0 1000 (clearHandTransient exC1hand) exC1body hhs2 rfl rfl
  have part2 := endGrab_released_body exC1 0 1000 exC1hand exC1body rfl rfl rfl
  refine ⟨⟨{ exC1body with
      vel := releaseVelocity exC1.settings (clearHandTransient exC1hand) exC1body },
      ?_, ?_⟩,
    ⟨{ exC1body with vel := releaseVelocity exC1.settings exC1hand exC1body },
      ?_, ?_⟩, ?_⟩
  · simpa [processHandMissing, exC1body] using part1
  · simpa using exC1_release_cleared
  · simpa [exC1body] using part2
  · simpa using exC1_release_direct
  · intro h
    have := congrArg Point2.x h
    norm_num at this

/-- Claim C1 witness for the amended theorem, at the concrete disappearing
state of the counterexample. -/
theorem claim1_witness :
    ∃ hs2 b2, (processHandMissing exC1 0 1000).hands.get? 0 = some hs2 ∧
      hs2.grabActiveId = none ∧ hs2.pointer.pinch = none ∧
      hs2.pointer.pinchVel = ⟨0, 0⟩ ∧ hs2.isPinching = false ∧
      hs2.throwSamples = [] ∧ hs2.colliders = [] ∧
      getBodyById (processHandMissing exC1 0 1000).bodies (some 1) = some b2 ∧
      b2.vel = clampVecMag
        ⟨lerp exC1body.vel.x 0 (clamp CONFIG.physics.throwBlend 0 1),
         lerp exC1body.vel.y 0 (clamp CONFIG.physics.throwBlend 0 1)⟩
        CONFIG.physics.maxThrowSpeed :=
  claim1_missing_hand_release exC1 0 1000 exC1hand 1 exC1body rfl rfl rfl

/-! ### Claim C5 — equal-mass elastic head-on collision swaps velocities -/

lemma max_zero_min_zero (t : ℝ) : max (0 : ℝ) (min 0 t) = 0 :=
  max_eq_left (min_le_left _ _)

/-- The circle-circle pair resolution at bias 1, masses 1/1, restitution 1,
friction 0, with both velocities along the contact normal and approaching:
the velocities are exchanged exactly. -/
lemma resolveCircleCircle_head_on (a : PhysicsBody) (ra : ℝ) (b : PhysicsBody)
    (rb α β : ℝ)
    (hma : a.mass = 1) (hmb : b.mass = 1)
    (hea : a.restitution = 1) (heb : b.restitution = 1)
    (hfa : a.friction = 0) (hfb : b.friction = 0)
    (hd1 : 0.0001 < Real.sqrt ((b.pos.x - a.pos.x) * (b.pos.x - a.pos.x)
      + (b.pos.y - a.pos.y) * (b.pos.y - a.pos.y)))
    (hd2 : Real.sqrt ((b.pos.x - a.pos.x) * (b.pos.x - a.pos.x)
      + (b.pos.y - a.pos.y) * (b.pos.y - a.pos.y)) < ra + rb)
    (hvax : a.vel.x = α * ((b.pos.x - a.pos.x)
      / Real.sqrt ((b.pos.x - a.pos.x) * (b.pos.x - a.pos.x)
        + (b.pos.y - a.pos.y) * (b.pos.y - a.pos.y))))
    (hvay : a.vel.y = α * ((b.pos.y - a.pos.y)
      / Real.sqrt ((b.pos.x - a.pos.x) * (b.pos.x - a.pos.x)
        + (b.pos.y - a.pos.y) * (b.pos.y - a.pos.y))))
    (hvbx : b.vel.x = β * ((b.pos.x - a.pos.x)
      / Real.sqrt ((b.pos.x - a.pos.x) * (b.pos.x - a.pos.x)
        + (b.pos.y - a.pos.y) * (b.pos.y - a.pos.y))))
    (hvby : b.vel.y = β * ((b.pos.y - a.pos.y)
      / Real.sqrt ((b.pos.x - a.pos.x) * (b.pos.x - a.pos.x)
        + (b.pos.y - a.pos.y) * (b.pos.y - a.pos.y))))
    (happ : β < α) :
    (resolveCircleCircle 1 a ra b rb).1.vel = b.vel ∧
    (resolveCircleCircle 1 a ra b rb).2.vel = a.vel := by
  set dx := b.pos.x - a.pos.x with hdx
  set dy := b.pos.y - a.pos.y with hdy
  set D := Real.sqrt (dx * dx + dy * dy) with hDdef
  have hDpos : 0 < D := lt_trans (by norm_num) hd1
  have hDne : D ≠ 0 := ne_of_gt hDpos
  have hDsq : D * D = dx * dx + dy * dy :=
    Real.mul_self_sqrt (add_nonneg (mul_self_nonneg dx) (mul_self_nonneg dy))
  have hvan : (b.vel.x - a.vel.x) * (dx / D) + (b.vel.y - a.vel.y) * (dy / D)
      = β - α := by
    rw [hvax, hvay, hvbx, hvby]
    calc (β * (dx / D) - α * (dx / D)) * (dx / D)
          + (β * (dy / D) - α * (dy / D)) * (dy / D)
        = (β - α) * ((dx * dx + dy * dy) / (D * D)) := by ring
      _ = (β - α) * ((D * D) / (D * D)) := by rw [hDsq]
      _ = β - α := by rw [div_self (mul_ne_zero hDne hDne)]; ring
  simp only [resolveCircleCircle]
  rw [if_pos ⟨hd1, hd2⟩, hvan, if_pos (show β - α < 0 by linarith)]
  constructor
  · show (⟨a.vel.x - _ / a.mass - _ / a.mass, a.vel.y - _ / a.mass - _ / a.mass⟩
      : Point2) = b.vel
    apply Point2.ext
    · show a.vel.x
        - (-(1 + min a.restitution b.restitution) * (β - α))
          / (1 / a.mass + 1 / b.mass) * (dx / D) * 1 / a.mass
        - max (-((-(1 + min a.restitution b.restitution) * (β - α))
              / (1 / a.mass + 1 / b.mass)) * ((a.friction + b.friction) * 0.5))
            (min ((-(1 + min a.restitution b.restitution) * (β - α))
                / (1 / a.mass + 1 / b.mass) * ((a.friction + b.friction) * 0.5))
              (-((b.vel.x - a.vel.x) * -(dy / D) + (b.vel.y - a.vel.y) * (dx / D))
                / (1 / a.mass + 1 / b.mass)))
          * -(dy / D) * 1 / a.mass = b.vel.x
      rw [hma, hmb, hea, heb, hfa, hfb]
      norm_num [max_zero_min_zero]
      rw [hvax, hvbx]
      field_simp
      ring
    · show a.vel.y
        - (-(1 + min a.restitution b.restitution) * (β - α))
          / (1 / a.mass + 1 / b.mass) * (dy / D) * 1 / a.mass
        - max (-((-(1 + min a.restitution b.restitution) * (β - α))
              / (1 / a.mass + 1 / b.mass)) * ((a.friction + b.friction) * 0.5))
            (min ((-(1 + min a.restitution b.restitution) * (β - α))
                / (1 / a.mass + 1 / b.mass) * ((a.friction + b.friction) * 0.5))
              (-((b.vel.x - a.vel.x) * -(dy / D) + (b.vel.y - a.vel.y) * (dx / D))
                / (1 / a.mass + 1 / b.mass)))
          * (dx / D) * 1 / a.mass = b.vel.y
      rw [hma, hmb, hea, heb, hfa, hfb]
      norm_num [max_zero_min_zero]
      rw [hvay, hvby]
      field_simp
      ring
  · show (⟨b.vel.x + _ / b.mass + _ / b.mass, b.vel.y + _ / b.mass + _ / b.mass⟩
      : Point2) = a.vel
    apply Point2.ext
    · show b.vel.x
        + (-(1 + min a.restitution b.restitution) * (β - α))
          / (1 / a.mass + 1 / b.mass) * (dx / D) * 1 / b.mass
        + max (-((-(1 + min a.restitution b.restitution) * (β - α))
              / (1 / a.mass + 1 / b.mass)) * ((a.friction + b.friction) * 0.5))
            (min ((-(1 + min a.restitution b.restitution) * (β - α))
                / (1 / a.mass + 1 / b.mass) * ((a.friction + b.friction) * 0.5))
              (-((b.vel.x - a.vel.x) * -(dy / D) + (b.vel.y - a.vel.y) * (dx / D))
                / (1 / a.mass + 1 / b.mass)))
          * -(dy / D) * 1 / b.mass = a.vel.x
      rw [hma, hmb, hea, heb, hfa, hfb]
      norm_num [max_zero_min_zero]
      rw [hvax, hvbx]
      field_simp
      ring
    · show b.vel.y
        + (-(1 + min a.restitution b.restitution) * (β - α))
          / (1 / a.mass + 1 / b.mass) * (dy / D) * 1 / b.mass
        + max (-((-(1 + min a.restitution b.restitution) * (β - α))
              / (1 / a.mass + 1 / b.mass)) * ((a.friction + b.friction) * 0.5))
            (min ((-(1 + min a.restitution b.restitution) * (β - α))
                / (1 / a.mass + 1 / b.mass) * ((a.friction + b.friction) * 0.5))
              (-((b.vel.x - a.vel.x) * -(dy / D) + (b.vel.y - a.vel.y) * (dx / D))
                / (1 / a.mass + 1 / b.mass)))
          * (dx / D) * 1 / b.mass = a.vel.y
      rw [hma, hmb, hea, heb, hfa, hfb]
      norm_num [max_zero_min_zero]
      rw [hvay, hvby]
      field_simp
      ring

/-- Claim C5: two ungrabbed circle bodies with mass 1 and 1, restitution 1
and friction 0, in an overlapping head-on configuration (both velocities
along the contact normal, approaching): one application of body-body
collision resolution exchanges the two velocities exactly, in real
arithmetic. -/
theorem claim5_elastic_swap (grabbed : List ℕ) (a b : PhysicsBody) (ra rb α β : ℝ)
    (hsa : a.shape = .circle ra) (hsb : b.shape = .circle rb)
    (hma : a.mass = 1) (hmb : b.mass = 1)
    (hea : a.restitution = 1) (heb : b.restitution = 1)
    (hfa : a.friction = 0) (hfb : b.friction = 0)
    (hga : a.id ∉ grabbed) (hgb : b.id ∉ grabbed)
    (hd1 : 0.0001 < dist b.pos a.pos) (hd2 : dist b.pos a.pos < ra + rb)
    (hvax : a.vel.x = α * ((b.pos.x - a.pos.x) / dist b.pos a.pos))
    (hvay : a.vel.y = α * ((b.pos.y - a.pos.y) / dist b.pos a.pos))
    (hvbx : b.vel.x = β * ((b.pos.x - a.pos.x) / dist b.pos a.pos))
    (hvby : b.vel.y = β * ((b.pos.y - a.pos.y) / dist b.pos a.pos))
    (happ : β < α) :
    ∃ a2 b2, resolveBodyCollisions grabbed [a, b] = [a2, b2] ∧
      a2.vel = b.vel ∧ b2.vel = a.vel := by
  have hpair := resolveCircleCircle_head_on a ra b rb α β hma hmb hea heb hfa hfb
    (by simpa [dist] using hd1) (by simpa [dist] using hd2)
    (by simpa [dist] using hvax) (by simpa [dist] using hvay)
    (by simpa [dist] using hvbx) (by simpa [dist] using hvby) happ
  refine ⟨(resolveCircleCircle 1 a ra b rb).1, (resolveCircleCircle 1 a ra b rb).2,
    ?_, hpair.1, hpair.2⟩
  simp only [resolveBodyCollisions]
  rw [show allPairs ([a, b].length) = [(0, 1)] from rfl]
  simp only [List.foldl_cons, List.foldl_nil, pairStep, List.get?]
  rw [if_neg (not_or.mpr ⟨hga, hgb⟩)]
  simp only [resolvePair, hsa, hsb]
  rfl

/-- Claim C5 witness: circles of radius 10 at (0, 0) and (16, 0)
(overlapping, distance 16), velocities (5, 0) and (−3, 0) along the contact
normal; after one collision pass the velocities are exchanged. -/
theorem claim5_witness :
    ∃ a2 b2, resolveBodyCollisions [] [exC5a, exC5b] = [a2, b2] ∧
      a2.vel = exC5b.vel ∧ b2.vel = exC5a.vel := by
  have hdist : dist exC5b.pos exC5a.pos = 16 := by
    show Real.sqrt ((exC5b.pos.x - exC5a.pos.x) * (exC5b.pos.x - exC5a.pos.x)
      + (exC5b.pos.y - exC5a.pos.y) * (exC5b.pos.y - exC5a.pos.y)) = 16
    rw [show (exC5b.pos.x - exC5a.pos.x) * (exC5b.pos.x - exC5a.pos.x)
        + (exC5b.pos.y - exC5a.pos.y) * (exC5b.pos.y - exC5a.pos.y)
      = 16 ^ 2 by norm_num [exC5a, exC5b]]
    exact Real.sqrt_sq (by norm_num)
  refine claim5_elastic_swap [] exC5a exC5b 10 10 5 (-3) rfl rfl rfl rfl rfl rfl
    rfl rfl (by simp) (by simp) ?_ ?_ ?_ ?_ ?_ ?_ (by norm_num)
  · rw [hdist]; norm_num
  · rw [hdist]; norm_num
  · rw [hdist]; show (5 : ℝ) = 5 * ((16 - 0) / 16); norm_num
  · rw [hdist]; show (0 : ℝ) = 5 * ((0 - 0) / 16); norm_num
  · rw [hdist]; show (-3 : ℝ) = -3 * ((16 - 0) / 16); norm_num
  · rw [hdist]; show (0 : ℝ) = -3 * ((0 - 0) / 16); norm_num

/-! ### Claim C8 — grabbed bodies: no gravity/drag, reduced collision bias -/

/-- The circle-circle pair resolution at the grabbed bias 0.6 produces
exactly 0.6 times the positional corrections and velocity changes of the
ungrabbed (bias 1) resolution, for both participants. -/
lemma resolveCircleCircle_bias_scale (a b : PhysicsBody) (ra rb : ℝ) :
    ((resolveCircleCircle 0.6 a ra b rb).1.pos.x - a.pos.x
      = 0.6 * ((resolveCircleCircle 1 a ra b rb).1.pos.x - a.pos.x)) ∧
    ((resolveCircleCircle 0.6 a ra b rb).1.pos.y - a.pos.y
      = 0.6 * ((resolveCircleCircle 1 a ra b rb).1.pos.y - a.pos.y)) ∧
    ((resolveCircleCircle 0.6 a ra b rb).1.vel.x - a.vel.x
      = 0.6 * ((resolveCircleCircle 1 a ra b rb).1.vel.x - a.vel.x)) ∧
    ((resolveCircleCircle 0.6 a ra b rb).1.vel.y - a.vel.y
      = 0.6 * ((resolveCircleCircle 1 a ra b rb).1.vel.y - a.vel.y)) ∧
    ((resolveCircleCircle 0.6 a ra b rb).2.pos.x - b.pos.x
      = 0.6 * ((resolveCircleCircle 1 a ra b rb).2.pos.x - b.pos.x)) ∧
    ((resolveCircleCircle 0.6 a ra b rb).2.pos.y - b.pos.y
      = 0.6 * ((resolveCircleCircle 1 a ra b rb).2.pos.y - b.pos.y)) ∧
    ((resolveCircleCircle 0.6 a ra b rb).2.vel.x - b.vel.x
      = 0.6 * ((resolveCircleCircle 1 a ra b rb).2.vel.x - b.vel.x)) ∧
    ((resolveCircleCircle 0.6 a ra b rb).2.vel.y - b.vel.y
      = 0.6 * ((resolveCircleCircle 1 a ra b rb).2.vel.y - b.vel.y)) := by
  simp only [resolveCircleCircle]
  split_ifs with h1 h2 <;>
    refine ⟨?_, ?_, ?_, ?_, ?_, ?_, ?_, ?_⟩ <;> simp <;> ring

/-- Claim C8: during a physics substep, (1) a grabbed body's integration is
unaffected by the gravity and air-drag settings; (2) its velocity is driven
only by the grab-follow blend toward the hand target; (3) an ungrabbed body
receives gravity accumulation and multiplicative air drag unchanged; (4) a
grabbed body still participates in body-body collision resolution — each
pair resolved by `resolveBodyCollisions` uses bias 0.6 when either
participant is grabbed and bias 1 otherwise (never an exemption); and (5)
the bias-0.6 resolution applies exactly 0.6 times the positional correction
and impulse of the bias-1 resolution.  (Floor/wall constraints and the
collision passes are applied by `stepPhysics` to every body by
construction.) -/
theorem claim8_grabbed_dynamics :
    (∀ (env : Env) (s : EngineState) (dt : ℝ) (b : PhysicsBody) (g2 d2 : ℝ),
      grabControllerOf s.hands b.id ≠ none →
      integrateBody env
          { s with settings := { s.settings with gravity := g2, airDrag := d2 } } dt b
        = integrateBody env s dt b) ∧
    (∀ (env : Env) (s : EngineState) (dt : ℝ) (b : PhysicsBody) (hi : ℕ),
      grabControllerOf s.hands b.id = some hi →
      (integrateBody env s dt b).vel =
        ⟨lerp b.vel.x (clampVecMag
            ⟨(s.hands.getD hi default).pointer.pinchVel.x
              + ((screenToWorld env s.cam
                  ((s.hands.getD hi default).pointer.pinch.getD default)).x - b.pos.x)
                * CONFIG.physics.grabPosGain,
             (s.hands.getD hi default).pointer.pinchVel.y
              + ((screenToWorld env s.cam
                  ((s.hands.getD hi default).pointer.pinch.getD default)).y - b.pos.y)
                * CONFIG.physics.grabPosGain⟩
            CONFIG.physics.maxGrabSpeed).x (clamp CONFIG.physics.grabFollow 0 1),
         lerp b.vel.y (clampVecMag
            ⟨(s.hands.getD hi default).pointer.pinchVel.x
              + ((screenToWorld env s.cam
                  ((s.hands.getD hi default).pointer.pinch.getD default)).x - b.pos.x)
                * CONFIG.physics.grabPosGain,
             (s.hands.getD hi default).pointer.pinchVel.y
              + ((screenToWorld env s.cam
                  ((s.hands.getD hi default).pointer.pinch.getD default)).y - b.pos.y)
                * CONFIG.physics.grabPosGain⟩
            CONFIG.physics.maxGrabSpeed).y (clamp CONFIG.physics.grabFollow 0 1)⟩) ∧
    (∀ (env : Env) (s : EngineState) (dt : ℝ) (b : PhysicsBody),
      grabControllerOf s.hands b.id = none →
      (integrateBody env s dt b).vel =
        ⟨b.vel.x * max 0 (1 - s.settings.airDrag * dt),
         (b.vel.y + s.settings.gravity * dt) * max 0 (1 - s.settings.airDrag * dt)⟩) ∧
    (∀ (G : List ℕ) (bs : List PhysicsBody) (i j : ℕ) (a b : PhysicsBody),
      bs.get? i = some a → bs.get? j = some b →
      pairStep G bs (i, j) =
        (bs.set i (resolvePair (if a.id ∈ G ∨ b.id ∈ G then 0.6 else 1) a b).1).set j
          (resolvePair (if a.id ∈ G ∨ b.id ∈ G then 0.6 else 1) a b).2) ∧
    (∀ (a b : PhysicsBody) (ra rb : ℝ),
      (resolveCircleCircle 0.6 a ra b rb).1.vel.x - a.vel.x
        = 0.6 * ((resolveCircleCircle 1 a ra b rb).1.vel.x - a.vel.x) ∧
      (resolveCircleCircle 0.6 a ra b rb).1.pos.x - a.pos.x
        = 0.6 * ((resolveCircleCircle 1 a ra b rb).1.pos.x - a.pos.x)) := by
  refine ⟨?_, ?_, ?_, ?_, ?_⟩
  · intro env s dt b g2 d2 hg
    cases hc : grabControllerOf s.hands b.id with
    | none => exact absurd hc hg
    | some hi => simp only [integrateBody, hc]
  · intro env s dt b hi hc
    simp only [integrateBody, hc]
  · intro env s dt b hc
    simp only [integrateBody, hc]
  · intro G bs i j a b ha hb
    simp only [pairStep, ha, hb]
  · intro a b ra rb
    exact ⟨(resolveCircleCircle_bias_scale a b ra rb).2.2.1,
      (resolveCircleCircle_bias_scale a b ra rb).1⟩

/-- Claim C8 witness: the conjuncts instantiated at concrete states — a
grabbed body (hand 0 of `exC6` controls body 1) integrates identically under
zeroed gravity/drag settings, an ungrabbed body receives the gravity/drag
law, and a pair with a grabbed participant resolves with bias 0.6. -/
theorem claim8_witness :
    integrateBody ⟨800, 600⟩
        { exC6 with settings := { exC6.settings with gravity := 0, airDrag := 0 } }
        (1 / 60) exC6body
      = integrateBody ⟨800, 600⟩ exC6 (1 / 60) exC6body ∧
    (integrateBody ⟨800, 600⟩ initialState (1 / 60) exC5a).vel =
      ⟨exC5a.vel.x * max 0 (1 - initialState.settings.airDrag * (1 / 60)),
       (exC5a.vel.y + initialState.settings.gravity * (1 / 60))
         * max 0 (1 - initialState.settings.airDrag * (1 / 60))⟩ ∧
    pairStep [1] [exC5a, exC5b] (0, 1) =
      ([exC5a, exC5b].set 0
          (resolvePair (if exC5a.id ∈ [1] ∨ exC5b.id ∈ [1] then 0.6 else 1)
            exC5a exC5b).1).set 1
        (resolvePair (if exC5a.id ∈ [1] ∨ exC5b.id ∈ [1] then 0.6 else 1)
          exC5a exC5b).2 := by
  refine ⟨?_, ?_, ?_⟩
  · exact claim8_grabbed_dynamics.1 ⟨800, 600⟩ exC6 (1 / 60) exC6body 0 0
      (by rw [show grabControllerOf exC6.hands exC6body.id = some 0 from rfl]; simp)
  · exact claim8_grabbed_dynamics.2.2.1 ⟨800, 600⟩ initialState (1 / 60) exC5a rfl
  · exact claim8_grabbed_dynamics.2.2.2.1 [1] [exC5a, exC5b] 0 1 exC5a exC5b rfl rfl

/-! ### Claim C7 — floor containment -/

lemma applyFloorWalls_contained_circle (fy leftX rightX : ℝ) (b : PhysicsBody)
    (r : ℝ) (hb : b.shape = .circle r) :
    (applyFloorWalls fy leftX rightX b).pos.y + r ≤ fy
      ∨ b.pos.y + r ≤ fy ∧ (applyFloorWalls fy leftX rightX b).pos.y = b.pos.y := by
  simp only [applyFloorWalls, hb]
  split_ifs with h1 h2 h3 h4 h5 h6 h7 <;> simp <;> linarith

lemma applyFloorWalls_contained_box (fy leftX rightX : ℝ) (b : PhysicsBody)
    (w h : ℝ) (hb : b.shape = .box w h) :
    (applyFloorWalls fy leftX rightX b).pos.y + h / 2 ≤ fy
      ∨ b.pos.y + h / 2 ≤ fy ∧ (applyFloorWalls fy leftX rightX b).pos.y = b.pos.y := by
  simp only [applyFloorWalls, hb]
  split_ifs with h1 h2 h3 h4 h5 h6 h7 <;> simp <;> linarith

lemma applyFloorWalls_shape (fy leftX rightX : ℝ) (b : PhysicsBody) :
    (applyFloorWalls fy leftX rightX b).shape = b.shape := by
  cases hb : b.shape with
  | circle r =>
    simp only [applyFloorWalls, hb]
    split_ifs <;> first | rfl | exact hb
  | box w h =>
    simp only [applyFloorWalls, hb]
    split_ifs <;> first | rfl | exact hb

/-- Claim C7 (amended): immediately after the floor-and-walls constraint
stage of `stepPhysics`, every circle body satisfies `pos.y + radius ≤ fy`
and every box body `pos.y + h/2 ≤ fy`; and a body that crossed the floor
line with downward velocity has its vertical velocity reflected and scaled
by its restitution, hence non-positive.  (The subsequent body-body collision
passes of the same step can push a body back below the floor line — see the
counterexample — so the property holds after the constraint stage, not at
the end of the step as claimed.) -/
theorem claim7_floor_pass (fy leftX rightX : ℝ) :
    (∀ (bs : List PhysicsBody), ∀ b2 ∈ bs.map (applyFloorWalls fy leftX rightX),
      (∀ r, b2.shape = .circle r → b2.pos.y + r ≤ fy) ∧
      (∀ w h, b2.shape = .box w h → b2.pos.y + h / 2 ≤ fy)) ∧
    (∀ (b : PhysicsBody) (r : ℝ), b.shape = .circle r → fy < b.pos.y + r →
      0 < b.vel.y → 0 ≤ b.restitution →
      (applyFloorWalls fy leftX rightX b).vel.y = -b.vel.y * b.restitution ∧
      (applyFloorWalls fy leftX rightX b).vel.y ≤ 0) ∧
    (∀ (b : PhysicsBody) (w h : ℝ), b.shape = .box w h → fy < b.pos.y + h / 2 →
      0 < b.vel.y → 0 ≤ b.restitution →
      (applyFloorWalls fy leftX rightX b).vel.y = -b.vel.y * b.restitution ∧
      (applyFloorWalls fy leftX rightX b).vel.y ≤ 0) := by
  refine ⟨?_, ?_, ?_⟩
  · intro bs b2 hb2
    obtain ⟨b, hb, rfl⟩ := List.mem_map.mp hb2
    constructor
    · intro r hr
      have hr0 : b.shape = .circle r := by
        rw [← applyFloorWalls_shape fy leftX rightX b]; exact hr
      rcases applyFloorWalls_contained_circle fy leftX rightX b r hr0 with h | ⟨h1, h2⟩
      · exact h
      · rw [h2]; exact h1
    · intro w h hwh
      have hr0 : b.shape = .box w h := by
        rw [← applyFloorWalls_shape fy leftX rightX b]; exact hwh
      rcases applyFloorWalls_contained_box fy leftX rightX b w h hr0 with h | ⟨h1, h2⟩
      · exact h
      · rw [h2]; exact h1
  · intro b r hb hcross hdown hrest
    simp only [applyFloorWalls, hb]
    rw [if_pos hcross, if_pos hdown]
    constructor
    · split_ifs <;> rfl
    · split_ifs <;>
        simpa using mul_nonneg (le_of_lt hdown) hrest
  · intro b w h hb hcross hdown hrest
    simp only [applyFloorWalls, hb]
    rw [if_pos hcross, if_pos hdown]
    constructor
    · split_ifs <;> rfl
    · split_ifs <;>
        simpa using mul_nonneg (le_of_lt hdown) hrest

/-- Claim C7 witness: the crossing body of the counterexample state, taken
through the constraint stage alone with floor line 160: it ends exactly on
the floor with reflected, non-positive vertical velocity. -/
theorem claim7_witness :
    (∀ b2 ∈ [exC7a].map (applyFloorWalls 160 (-400) 400),
      ∀ r, b2.shape = .circle r → b2.pos.y + r ≤ 160) ∧
    (applyFloorWalls 160 (-400) 400
      { exC7a with pos := ⟨200, 155⟩ }).vel.y = -exC7a.vel.y * exC7a.restitution := by
  constructor
  · intro b2 hb2 r hr
    exact ((claim7_floor_pass 160 (-400) 400).1 [exC7a] b2 hb2).1 r hr
  · exact ((claim7_floor_pass 160 (-400) 400).2.1 { exC7a with pos := ⟨200, 155⟩ } 10
      rfl (by norm_num [exC7a]) (by norm_num [exC7a]) (by norm_num [exC7a])).1

lemma foldl_resolveBodyVsStatic_id (b : PhysicsBody) (cols : List StaticCollider)
    (h : ∀ s ∈ cols, resolveBodyVsStatic s b = b) :
    cols.foldl (fun b s => resolveBodyVsStatic s b) b = b := by
  induction cols with
  | nil => rfl
  | cons c rest ih =>
    rw [List.foldl_cons]
    rw [show resolveBodyVsStatic c b = b from h c (by simp)]
    exact ih (fun s hs => h s (by simp [hs]))

lemma hoopBodiesPass_id (rig : HoopRig) (bs : List PhysicsBody)
    (h : ∀ b ∈ bs, ∀ s ∈ rig.colliders, resolveBodyVsStatic s b = b) :
    hoopBodiesPass rig bs = bs := by
  induction bs with
  | nil => rfl
  | cons b rest ih =>
    simp only [hoopBodiesPass, List.map_cons]
    rw [foldl_resolveBodyVsStatic_id b rig.colliders (h b (by simp))]
    have := ih (fun b2 hb2 s hs => h b2 (by simp [hb2]) s hs)
    simp only [hoopBodiesPass] at this
    rw [this]

lemma resolveHandCollisions_no_colliders (nowMs : ℝ) (hands : List HandState)
    (ign : List ((ℕ × ℕ) × ℝ)) (bs : List PhysicsBody)
    (h : (hands.map (fun hd => hd.colliders)).flatten = []) :
    resolveHandCollisions nowMs hands ign bs = bs := by
  simp only [resolveHandCollisions, h]
  rw [if_neg (by simp [CONFIG.physics.handCollisions])]
  rw [if_pos (by simp)]

lemma resolveBodyVsStatic_circle_miss (spos : Point2) (sr se sf : ℝ)
    (b : PhysicsBody) (br : ℝ) (hb : b.shape = .circle br)
    (h : (br + sr) * (br + sr) ≤ (b.pos.x - spos.x) * (b.pos.x - spos.x)
      + (b.pos.y - spos.y) * (b.pos.y - spos.y)) :
    resolveBodyVsStatic (.circle spos sr se sf) b = b := by
  simp only [resolveBodyVsStatic, hb]
  rw [if_pos h]

lemma resolveBodyVsStatic_box_circle_miss (spos : Point2) (sw sh se sf : ℝ)
    (b : PhysicsBody) (r : ℝ) (hb : b.shape = .circle r)
    (h : r * r ≤ (b.pos.x - max (spos.x - sw / 2) (min b.pos.x (spos.x + sw / 2)))
        * (b.pos.x - max (spos.x - sw / 2) (min b.pos.x (spos.x + sw / 2)))
      + (b.pos.y - max (spos.y - sh / 2) (min b.pos.y (spos.y + sh / 2)))
        * (b.pos.y - max (spos.y - sh / 2) (min b.pos.y (spos.y + sh / 2)))) :
    resolveBodyVsStatic (.box spos sw sh se sf) b = b := by
  simp only [resolveBodyVsStatic, hb]
  rw [if_pos h]

/-- One collision pass on a two-body world of circles reduces to a single
circle-circle pair resolution. -/
lemma resolveBodyCollisions_two_circles (G : List ℕ) (a b : PhysicsBody)
    (ra rb : ℝ) (hsa : a.shape = .circle ra) (hsb : b.shape = .circle rb)
    (hga : a.id ∉ G) (hgb : b.id ∉ G) :
    resolveBodyCollisions G [a, b]
      = [(resolveCircleCircle 1 a ra b rb).1, (resolveCircleCircle 1 a ra b rb).2] := by
  simp only [resolveBodyCollisions]
  rw [show allPairs ([a, b].length) = [(0, 1)] from rfl]
  simp only [List.foldl_cons, List.foldl_nil, pairStep, List.get?]
  rw [if_neg (not_or.mpr ⟨hga, hgb⟩)]
  simp only [resolvePair, hsa, hsb]
  rfl

/-- Claim C7 counterexample: in an 800×600 window at zoom 1 (floor line at
world y = 160), body `exC7a` (circle of radius 10 at y = 159, falling at 120
px/s) crosses the floor line during a single 1/60 s `stepPhysics` call; the
floor constraint clamps it, but the subsequent body-body collision passes
separate it from the resting body below it and push it back below the floor
line.  At the end of the step the body has `pos.y + radius ≈ 168.3 > 160`
and positive (downward) vertical velocity, refuting the end-of-step
containment claim. -/
theorem claim7_counterexample :
    exC7a.shape = .circle 10 ∧ 0 < exC7a.vel.y ∧
    floorY ⟨800, 600⟩ exC7.cam exC7.settings = 160 ∧
    160 < (integrateBody ⟨800, 600⟩ exC7 (1 / 60) exC7a).pos.y + 10 ∧
    (stepPhysics ⟨800, 600⟩ 0 exC7 (1 / 60)).bodies = [exC7aFin, exC7bFin] ∧
    160 < exC7aFin.pos.y + 10 ∧
    0 < exC7aFin.vel.y := by
  have hctrlA : grabControllerOf exC7.hands exC7a.id = none := rfl
  have hctrlB : grabControllerOf exC7.hands exC7b.id = none := rfl
  have hIa : integrateBody ⟨800, 600⟩ exC7 (1 / 60) exC7a = exC7aInt := by
    simp only [integrateBody, hctrlA]
    ext <;> norm_num [exC7, exC7a, exC7aInt, initialState, defaultSettings,
      CONFIG.physics.gravity, CONFIG.physics.airDrag]
  have hIb : integrateBody ⟨800, 600⟩ exC7 (1 / 60) exC7b = exC7bInt := by
    simp only [integrateBody, hctrlB]
    ext <;> norm_num [exC7, exC7b, exC7bInt, initialState, defaultSettings,
      CONFIG.physics.gravity, CONFIG.physics.airDrag]
  have hhand : ∀ bs, resolveHandCollisions 0 exC7.hands exC7.ignoreUntil bs = bs :=
    fun bs => resolveHandCollisions_no_colliders 0 _ _ bs rfl
  have hfy : floorY ⟨800, 600⟩ exC7.cam exC7.settings = 160 := by
    norm_num [floorY, screenToWorld, exC7, initialState, defaultSettings,
      CONFIG.physics.floorHeight]
  have hmissA : ∀ s ∈ (getHoopRig ⟨800, 600⟩ exC7.cam).colliders,
      resolveBodyVsStatic s exC7aInt = exC7aInt := by
    intro s hs
    simp only [getHoopRig, List.mem_cons, List.not_mem_nil, or_false] at hs
    rcases hs with h | h | h | h | h <;> subst h
    · exact resolveBodyVsStatic_box_circle_miss _ _ _ _ _ _ 10 rfl
        (by norm_num [screenToWorld, clamp, exC7, exC7aInt, initialState,
          CONFIG.physics.hoopRestitution, CONFIG.physics.hoopFriction])
    · exact resolveBodyVsStatic_circle_miss _ _ _ _ _ 10 rfl
        (by norm_num [screenToWorld, clamp, exC7, exC7aInt, initialState])
    · exact resolveBodyVsStatic_circle_miss _ _ _ _ _ 10 rfl
        (by norm_num [screenToWorld, clamp, exC7, exC7aInt, initialState])
    · exact resolveBodyVsStatic_circle_miss _ _ _ _ _ 10 rfl
        (by norm_num [screenToWorld, clamp, exC7, exC7aInt, initialState])
    · exact resolveBodyVsStatic_box_circle_miss _ _ _ _ _ _ 10 rfl
        (by norm_num [screenToWorld, clamp, exC7, exC7aInt, initialState])
  have hmissB : ∀ s ∈ (getHoopRig ⟨800, 600⟩ exC7.cam).colliders,
      resolveBodyVsStatic s exC7bInt = exC7bInt := by
    intro s hs
    simp only [getHoopRig, List.mem_cons, List.not_mem_nil, or_false] at hs
    rcases hs with h | h | h | h | h <;> subst h
    · exact resolveBodyVsStatic_box_circle_miss _ _ _ _ _ _ 10 rfl
        (by norm_num [screenToWorld, clamp, exC7, exC7bInt, initialState])
    · exact resolveBodyVsStatic_circle_miss _ _ _ _ _ 10 rfl
        (by norm_num [screenToWorld, clamp, exC7, exC7bInt, initialState])
    · exact resolveBodyVsStatic_circle_miss _ _ _ _ _ 10 rfl
        (by norm_num [screenToWorld, clamp, exC7, exC7bInt, initialState])
    · exact resolveBodyVsStatic_circle_miss _ _ _ _ _ 10 rfl
        (by norm_num [screenToWorld, clamp, exC7, exC7bInt, initialState])
    · exact resolveBodyVsStatic_box_circle_miss _ _ _ _ _ _ 10 rfl
        (by norm_num [screenToWorld, clamp, exC7, exC7bInt, initialState])
  have hhoop : hoopBodiesPass (getHoopRig ⟨800, 600⟩ exC7.cam) [exC7aInt, exC7bInt]
      = [exC7aInt, exC7bInt] := by
    apply hoopBodiesPass_id
    intro b hb s hs
    simp only [List.mem_cons, List.not_mem_nil, or_false] at hb
    rcases hb with h | h <;> subst h
    · exact hmissA s hs
    · exact hmissB s hs
  have hfwA : applyFloorWalls 160 (-400) 400 exC7aInt = exC7aFloor := by
    simp only [applyFloorWalls, show exC7aInt.shape = .circle 10 from rfl]
    norm_num [exC7aInt, exC7aFloor]
  have hfwB : applyFloorWalls 160 (-400) 400 exC7bInt = exC7bInt := by
    simp only [applyFloorWalls, show exC7bInt.shape = .circle 10 from rfl]
    norm_num [exC7bInt]
  have hD1 : Real.sqrt ((exC7bInt.pos.x - exC7aFloor.pos.x)
      * (exC7bInt.pos.x - exC7aFloor.pos.x)
      + (exC7bInt.pos.y - exC7aFloor.pos.y) * (exC7bInt.pos.y - exC7aFloor.pos.y))
      = 183011 / 54000 := by
    rw [show (exC7bInt.pos.x - exC7aFloor.pos.x) * (exC7bInt.pos.x - exC7aFloor.pos.x)
        + (exC7bInt.pos.y - exC7aFloor.pos.y) * (exC7bInt.pos.y - exC7aFloor.pos.y)
      = ((183011 : ℝ) / 54000) ^ 2 by norm_num [exC7aFloor, exC7bInt]]
    exact Real.sqrt_sq (by norm_num)
  have hrcc1 : resolveCircleCircle 1 exC7aFloor 10 exC7bInt 10
      = (exC7aFin, exC7bFin) := by
    simp only [resolveCircleCircle, hD1]
    rw [if_pos (by constructor <;> norm_num)]
    rw [if_pos (by norm_num [exC7aFloor, exC7bInt])]
    ext <;> norm_num [exC7aFloor, exC7bInt, exC7aFin, exC7bFin]
  have hD2 : Real.sqrt ((exC7bFin.pos.x - exC7aFin.pos.x)
      * (exC7bFin.pos.x - exC7aFin.pos.x)
      + (exC7bFin.pos.y - exC7aFin.pos.y) * (exC7bFin.pos.y - exC7aFin.pos.y))
      = 20 := by
    rw [show (exC7bFin.pos.x - exC7aFin.pos.x) * (exC7bFin.pos.x - exC7aFin.pos.x)
        + (exC7bFin.pos.y - exC7aFin.pos.y) * (exC7bFin.pos.y - exC7aFin.pos.y)
      = (20 : ℝ) ^ 2 by norm_num [exC7aFin, exC7bFin]]
    exact Real.sqrt_sq (by norm_num)
  have hrcc2 : resolveCircleCircle 1 exC7aFin 10 exC7bFin 10
      = (exC7aFin, exC7bFin) := by
    simp only [resolveCircleCircle, hD2]
    rw [if_neg (by norm_num)]
  have hcoll1 : resolveBodyCollisions (grabbedIds exC7.hands) [exC7aFloor, exC7bInt]
      = [exC7aFin, exC7bFin] := by
    rw [resolveBodyCollisions_two_circles (grabbedIds exC7.hands) exC7aFloor exC7bInt
      10 10 rfl rfl (by simp [grabbedIds, exC7, initialState, initialHand])
      (by simp [grabbedIds, exC7, initialState, initialHand]), hrcc1]
  have hcoll2 : resolveBodyCollisions (grabbedIds exC7.hands) [exC7aFin, exC7bFin]
      = [exC7aFin, exC7bFin] := by
    rw [resolveBodyCollisions_two_circles (grabbedIds exC7.hands) exC7aFin exC7bFin
      10 10 rfl rfl (by simp [grabbedIds, exC7, initialState, initialHand])
      (by simp [grabbedIds, exC7, initialState, initialHand]), hrcc2]
  have hstep : (stepPhysics ⟨800, 600⟩ 0 exC7 (1 / 60)).bodies
      = [exC7aFin, exC7bFin] := by
    simp only [stepPhysics]
    rw [show exC7.bodies.map (integrateBody ⟨800, 600⟩ exC7 (1 / 60))
      = [exC7aInt, exC7bInt] by
        show [exC7a, exC7b].map _ = _
        simp only [List.map_cons, List.map_nil, hIa, hIb]]
    rw [hhand, hhand]
    rw [if_pos (show CONFIG.physics.hoopEnabled = true from rfl)]
    rw [hhoop, hhoop]
    rw [hfy]
    rw [show ((screenToWorld ⟨800, 600⟩ exC7.cam ⟨0, 0⟩).x) = (-400 : ℝ) by
      norm_num [screenToWorld, exC7, initialState]]
    rw [show ((screenToWorld ⟨800, 600⟩ exC7.cam
        ⟨(⟨800, 600⟩ : Env).width, 0⟩).x) = (400 : ℝ) by
      norm_num [screenToWorld, exC7, initialState]]
    rw [show [exC7aInt, exC7bInt].map (applyFloorWalls 160 (-400) 400)
      = [exC7aFloor, exC7bInt] by
        simp only [List.map_cons, List.map_nil, hfwA, hfwB]]
    rw [hcoll1, hcoll2]
  exact ⟨rfl, by norm_num [exC7a], hfy, by rw [hIa]; norm_num [exC7aInt],
    hstep, by norm_num [exC7aFin], by norm_num [exC7aFin]⟩

/-! ### Infrastructure for the reachable-state invariants (claims C3, C9) -/

lemma map_set (l : List α) (n : ℕ) (x : α) (f : α → β) :
    (l.set n x).map f = (l.map f).set n (f x) := by
  induction l generalizing n with
  | nil => simp
  | cons a t ih =>
    cases n with
    | zero => simp
    | succ m => simp [ih]

lemma set_get?_eq (l : List α) (n : ℕ) (y : α) (h : l.get? n = some y) :
    l.set n y = l := by
  induction l generalizing n with
  | nil => simp
  | cons a t ih =>
    cases n with
    | zero => simp at h; simp [h]
    | succ m =>
      simp only [List.get?] at h
      simp [ih m h]

lemma updateFirst_map (p : α → Bool) (f : α → α) (g : α → β) (l : List α)
    (h : ∀ a, g (f a) = g a) : (updateFirst p f l).map g = l.map g := by
  induction l with
  | nil => rfl
  | cons a t ih =>
    by_cases hp : p a = true
    · simp [updateFirst, hp, h]
    · have hp2 : p a = false := by simpa using hp
      simp [updateFirst, hp2, ih]

lemma integrateBody_id (env : Env) (s : EngineState) (dt : ℝ) (b : PhysicsBody) :
    (integrateBody env s dt b).id = b.id := by
  cases h : grabControllerOf s.hands b.id <;> simp only [integrateBody, h]

lemma applyFloorWalls_id (fy leftX rightX : ℝ) (b : PhysicsBody) :
    (applyFloorWalls fy leftX rightX b).id = b.id := by
  cases hb : b.shape with
  | circle r => simp only [applyFloorWalls, hb]; split_ifs <;> rfl
  | box w h => simp only [applyFloorWalls, hb]; split_ifs <;> rfl

lemma resolveBodyVsStatic_id (s : StaticCollider) (b : PhysicsBody) :
    (resolveBodyVsStatic s b).id = b.id := by
  cases s <;> cases hb : b.shape <;>
    (simp only [resolveBodyVsStatic, hb]; split_ifs <;> rfl)

lemma resolveBodyVsHand_id (b : PhysicsBody) (c : HandCollider) :
    (resolveBodyVsHand b c).id = b.id := by
  cases hb : b.shape <;> (simp only [resolveBodyVsHand, hb]; split_ifs <;> rfl)

lemma resolveCircleCircle_id (bias : ℝ) (a : PhysicsBody) (ra : ℝ)
    (b : PhysicsBody) (rb : ℝ) :
    (resolveCircleCircle bias a ra b rb).1.id = a.id ∧
    (resolveCircleCircle bias a ra b rb).2.id = b.id := by
  simp only [resolveCircleCircle]; split_ifs <;> exact ⟨rfl, rfl⟩

lemma resolveBoxBox_id (bias : ℝ) (a : PhysicsBody) (aw ah : ℝ)
    (b : PhysicsBody) (bw bh : ℝ) :
    (resolveBoxBox bias a aw ah b bw bh).1.id = a.id ∧
    (resolveBoxBox bias a aw ah b bw bh).2.id = b.id := by
  simp only [resolveBoxBox]; split_ifs <;> exact ⟨rfl, rfl⟩

lemma resolveCircleBox_id (bias : ℝ) (a : PhysicsBody) (r : ℝ)
    (b : PhysicsBody) (bw bh : ℝ) :
    (resolveCircleBox bias a r b bw bh).1.id = a.id ∧
    (resolveCircleBox bias a r b bw bh).2.id = b.id := by
  simp only [resolveCircleBox]; split_ifs <;> exact ⟨rfl, rfl⟩

lemma resolvePair_id (bias : ℝ) (a b : PhysicsBody) :
    (resolvePair bias a b).1.id = a.id ∧ (resolvePair bias a b).2.id = b.id := by
  cases ha : a.shape <;> cases hb : b.shape <;> simp only [resolvePair, ha, hb]
  · exact resolveCircleCircle_id bias a _ b _
  · exact resolveCircleBox_id bias a _ b _ _
  · exact ⟨(resolveCircleBox_id bias b _ a _ _).2, (resolveCircleBox_id bias b _ a _ _).1⟩
  · exact resolveBoxBox_id bias a _ _ b _ _

lemma pairStep_map_id (G : List ℕ) (bs : List PhysicsBody) (ij : ℕ × ℕ) :
    (pairStep G bs ij).map (fun b => b.id) = bs.map (fun b => b.id) := by
  rcases ij with ⟨i, j⟩
  simp only [pairStep]
  cases ha : bs.get? i with
  | none => rfl
  | some a =>
    cases hb : bs.get? j with
    | none => rfl
    | some b =>
      simp only
      rw [map_set, map_set]
      rw [(resolvePair_id _ a b).1, (resolvePair_id _ a b).2]
      rw [set_get?_eq _ i a.id (by rw [List.get?_map, ha]; rfl)]
      rw [set_get?_eq _ j b.id (by rw [List.get?_map, hb]; rfl)]

lemma resolveBodyCollisions_map_id (G : List ℕ) (bs : List PhysicsBody) :
    (resolveBodyCollisions G bs).map (fun b => b.id) = bs.map (fun b => b.id) := by
  simp only [resolveBodyCollisions]
  generalize allPairs bs.length = pairs
  induction pairs generalizing bs with
  | nil => rfl
  | cons p rest ih =>
    rw [List.foldl_cons]
    rw [ih (pairStep G bs p)]
    exact pairStep_map_id G bs p

lemma foldl_id_preserves (f : PhysicsBody → γ → PhysicsBody) (l : List γ)
    (h : ∀ b c, (f b c).id = b.id) : ∀ b : PhysicsBody, (l.foldl f b).id = b.id := by
  induction l with
  | nil => intro b; rfl
  | cons c rest ih =>
    intro b
    rw [List.foldl_cons, ih (f b c), h]

lemma map_id_of_pointwise (F : PhysicsBody → PhysicsBody)
    (h : ∀ b, (F b).id = b.id) (l : List PhysicsBody) :
    (l.map F).map (fun b => b.id) = l.map (fun b => b.id) := by
  induction l with
  | nil => rfl
  | cons b rest ih => simp [h, ih]

lemma resolveHandCollisions_map_id (nowMs : ℝ) (hands : List HandState)
    (ign : List ((ℕ × ℕ) × ℝ)) (bs : List PhysicsBody) :
    (resolveHandCollisions nowMs hands ign bs).map (fun b => b.id)
      = bs.map (fun b => b.id) := by
  simp only [resolveHandCollisions]
  split_ifs with h1 h2
  all_goals first
  | rfl
  | (apply map_id_of_pointwise
     intro b
     apply foldl_id_preserves
     intro b2 c
     split_ifs with hc1 hc2
     · rfl
     · rfl
     · exact resolveBodyVsHand_id b2 c)

lemma hoopBodiesPass_map_id (rig : HoopRig) (bs : List PhysicsBody) :
    (hoopBodiesPass rig bs).map (fun b => b.id) = bs.map (fun b => b.id) := by
  apply map_id_of_pointwise
  intro b
  apply foldl_id_preserves
  intro b2 c
  exact resolveBodyVsStatic_id c b2

lemma stepPhysics_map_id (env : Env) (nowMs : ℝ) (s : EngineState) (dt : ℝ) :
    (stepPhysics env nowMs s dt).bodies.map (fun b => b.id)
      = s.bodies.map (fun b => b.id) := by
  simp only [stepPhysics]
  rw [resolveBodyCollisions_map_id, resolveBodyCollisions_map_id,
    map_id_of_pointwise _ (applyFloorWalls_id _ _ _)]
  split_ifs with hc
  · rw [hoopBodiesPass_map_id, hoopBodiesPass_map_id,
      resolveHandCollisions_map_id, resolveHandCollisions_map_id,
      map_id_of_pointwise _ (integrateBody_id env s dt)]
  · rw [resolveHandCollisions_map_id, resolveHandCollisions_map_id,
      map_id_of_pointwise _ (integrateBody_id env s dt)]

lemma stepPhysics_hands (env : Env) (nowMs : ℝ) (s : EngineState) (dt : ℝ) :
    (stepPhysics env nowMs s dt).hands = s.hands := by
  simp only [stepPhysics]

lemma stepPhysics_nextId (env : Env) (nowMs : ℝ) (s : EngineState) (dt : ℝ) :
    (stepPhysics env nowMs s dt).nextId = s.nextId := by
  simp only [stepPhysics]

lemma tryStartGrab_state (env : Env) (s : EngineState) (i : ℕ) :
    (tryStartGrabForHand env s i).bodies = s.bodies ∧
    (tryStartGrabForHand env s i).nextId = s.nextId := by
  cases h : s.hands.get? i with
  | none => simp only [tryStartGrabForHand, h]; constructor <;> trivial
  | some hs =>
    simp only [tryStartGrabForHand, h]
    split_ifs with hg
    · constructor <;> trivial
    · cases hbest : grabSearch s.hands i
          (screenToWorld env s.cam (hs.pointer.pinch.getD default))
          (s.settings.grabRadius / s.cam.zoom) s.bodies with
      | none => simp only [hbest]; constructor <;> trivial
      | some p => simp only [hbest]; constructor <;> trivial

lemma endGrab_state (s : EngineState) (i : ℕ) (now : ℝ) :
    (endGrabForHand s i now).bodies.map (fun b => b.id)
      = s.bodies.map (fun b => b.id) ∧
    (endGrabForHand s i now).nextId = s.nextId := by
  cases h : s.hands.get? i with
  | none => simp only [endGrabForHand, h]; constructor <;> trivial
  | some hs =>
    simp only [endGrabForHand, h]
    cases hb : getBodyById s.bodies hs.grabActiveId with
    | none => simp only [hb]; constructor <;> trivial
    | some b =>
      simp only [hb]
      refine ⟨updateFirst_map _ _ _ _ (fun a => rfl), by trivial⟩

lemma BodyIdsOk_of_map_id_eq (s s' : EngineState)
    (hmap : s'.bodies.map (fun b => b.id) = s.bodies.map (fun b => b.id))
    (hnext : s'.nextId = s.nextId) (h : BodyIdsOk s) : BodyIdsOk s' := by
  constructor
  · rw [hmap]; exact h.1
  · intro b hb
    have : b.id ∈ s'.bodies.map (fun b => b.id) := List.mem_map_of_mem _ hb
    rw [hmap] at this
    obtain ⟨c, hc, hcid⟩ := List.mem_map.mp this
    rw [hnext, ← hcid]
    exact h.2 c hc

lemma bodyIdsOk_append (s : EngineState) (new : PhysicsBody)
    (hid : new.id = s.nextId) (h : BodyIdsOk s) :
    BodyIdsOk { s with nextId := s.nextId + 1, bodies := s.bodies ++ [new] } := by
  constructor
  · show (List.map _ (s.bodies ++ [new])).Pairwise (· < ·)
    rw [List.map_append]
    apply List.pairwise_append.mpr
    refine ⟨h.1, by simp, ?_⟩
    intro x hx y hy
    obtain ⟨b, hb, rfl⟩ := List.mem_map.mp hx
    simp only [List.map_cons, List.map_nil, List.mem_singleton] at hy
    rw [hy, hid]
    exact h.2 b hb
  · intro b hb
    rcases List.mem_append.mp hb with h1 | h2
    · exact lt_trans (h.2 b h1) (Nat.lt_succ_self _)
    · simp only [List.mem_singleton] at h2
      subst h2
      rw [hid]
      exact Nat.lt_succ_self _

lemma grabExclusive_of_hands_eq (s s2 : EngineState) (h : s2.hands = s.hands)
    (hex : GrabExclusive s) : GrabExclusive s2 := by
  intro i j hi hj bid hij hgi hgj
  rw [h] at hgi hgj
  exact hex i j hi hj bid hij hgi hgj

lemma grabExclusive_update (s : EngineState) (i : ℕ) (f : HandState → HandState)
    (hex : GrabExclusive s)
    (h : ∀ hs, s.hands.get? i = some hs →
      (f hs).grabActiveId = none ∨ (f hs).grabActiveId = hs.grabActiveId ∨
      ∃ bid, (f hs).grabActiveId = some bid ∧
        ¬ isBodyGrabbedByOtherHand s.hands bid i) :
    GrabExclusive { s with hands := modifyIdx s.hands i f } := by
  intro j k hj hk bid hjk hgj hgk hgrabj
  have hgj' : (modifyIdx s.hands i f).get? j = some hj := hgj
  have hgk' : (modifyIdx s.hands i f).get? k = some hk := hgk
  by_cases hji : j = i
  · subst hji
    rw [modifyIdx_get?_self] at hgj'
    cases hgs : s.hands.get? j with
    | none => rw [hgs] at hgj'; exact absurd hgj' (by simp)
    | some hs =>
      rw [hgs] at hgj'
      have hfhs : f hs = hj := by simpa using hgj'
      have hgk2 : s.hands.get? k = some hk := by
        rw [modifyIdx_get?_ne s.hands j k f (Ne.symm hjk)] at hgk'
        exact hgk'
      rcases h hs hgs with h0 | h1 | ⟨bid2, hbid2, hno⟩
      · rw [← hfhs, h0] at hgrabj
        exact absurd hgrabj (by simp)
      · rw [← hfhs, h1] at hgrabj
        exact hex j k hs hk bid hjk hgs hgk2 hgrabj
      · rw [← hfhs, hbid2] at hgrabj
        have hbb : bid2 = bid := Option.some.inj hgrabj
        intro hc
        exact hno ⟨k, hk, Ne.symm hjk, hgk2, by rw [hbb]; exact hc⟩
  · have hgj2 : s.hands.get? j = some hj := by
      rw [modifyIdx_get?_ne s.hands i j f hji] at hgj'
      exact hgj'
    by_cases hki : k = i
    · subst hki
      rw [modifyIdx_get?_self] at hgk'
      cases hgs : s.hands.get? k with
      | none => rw [hgs] at hgk'; exact absurd hgk' (by simp)
      | some hs =>
        rw [hgs] at hgk'
        have hfhs : f hs = hk := by simpa using hgk'
        rcases h hs hgs with h0 | h1 | ⟨bid2, hbid2, hno⟩
        · rw [← hfhs, h0]
          simp
        · rw [← hfhs, h1]
          exact hex j k hj hs bid hjk hgj2 hgs hgrabj
        · rw [← hfhs, hbid2]
          intro hc
          have hbb : bid2 = bid := Option.some.inj hc
          exact hno ⟨j, hj, hji, hgj2, by rw [hbb]; exact hgrabj⟩
    · have hgk2 : s.hands.get? k = some hk := by
        rw [modifyIdx_get?_ne s.hands i k f hki] at hgk'
        exact hgk'
      exact hex j k hj hk bid hjk hgj2 hgk2 hgrabj

lemma resetScene_exclusive (s : EngineState) : GrabExclusive (resetScene s) := by
  intro i j hi hj bid hij hgi hgj hgrab
  have hgi' : (s.hands.map (fun h => { h with grabActiveId := none })).get? i
      = some hi := hgi
  rw [List.get?_map] at hgi'
  cases hgs : s.hands.get? i with
  | none => rw [hgs] at hgi'; exact absurd hgi' (by simp)
  | some h0 =>
    rw [hgs] at hgi'
    have hh : ({ h0 with grabActiveId := none } : HandState) = hi := by
      simpa using hgi'
    rw [← hh] at hgrab
    exact absurd hgrab (by simp)

lemma handFrameUpdate_grab (env : Env) (cam : Camera2D) (i : ℕ)
    (lms : List Point2) (now : ℝ) (hs : HandState) :
    (handFrameUpdate env cam i lms now hs).grabActiveId = hs.grabActiveId := rfl

lemma tryStartGrab_exclusive (env : Env) (s : EngineState) (i : ℕ)
    (hex : GrabExclusive s) : GrabExclusive (tryStartGrabForHand env s i) := by
  cases h : s.hands.get? i with
  | none =>
    simp only [tryStartGrabForHand, h]
    exact hex
  | some hs =>
    by_cases hg : hs.pointer.pinch = none ∨ hs.grabActiveId ≠ none
    · simp only [tryStartGrabForHand, h, if_pos hg]
      exact hex
    · cases hbest : grabSearch s.hands i
          (screenToWorld env s.cam (hs.pointer.pinch.getD default))
          (s.settings.grabRadius / s.cam.zoom) s.bodies with
      | none =>
        simp only [tryStartGrabForHand, h, if_neg hg, hbest]
        apply grabExclusive_update s i _ hex
        intro hs0 hget
        have hh : hs = hs0 := Option.some.inj (h.symm.trans hget)
        right; left
        rw [← hh]
      | some p =>
        simp only [tryStartGrabForHand, h, if_neg hg, hbest]
        apply grabExclusive_update s i _ hex
        intro hs0 hget
        right; right
        exact ⟨p.1.id, rfl, (grabSearch_sound s.hands i _ _ s.bodies p hbest).2.1⟩

lemma endGrab_exclusive (s : EngineState) (i : ℕ) (now : ℝ)
    (hex : GrabExclusive s) : GrabExclusive (endGrabForHand s i now) := by
  cases h : s.hands.get? i with
  | none =>
    simp only [endGrabForHand, h]
    exact hex
  | some hs =>
    cases hb : getBodyById s.bodies hs.grabActiveId with
    | none =>
      simp only [endGrabForHand, h, hb]
      exact grabExclusive_update s i _ hex (fun hs0 _ => Or.inl rfl)
    | some b =>
      simp only [endGrabForHand, h, hb]
      refine grabExclusive_of_hands_eq
        { s with hands := modifyIdx s.hands i (fun _ => { hs with grabActiveId := none, throwSamples := [] }) }
        _ rfl ?_
      exact grabExclusive_update s i _ hex (fun hs0 _ => Or.inl rfl)

lemma processHandMissing_exclusive (s : EngineState) (i : ℕ) (now : ℝ)
    (hex : GrabExclusive s) : GrabExclusive (processHandMissing s i now) := by
  simp only [processHandMissing]
  apply endGrab_exclusive
  exact grabExclusive_update s i _ hex (fun hs0 _ => Or.inr (Or.inl rfl))

lemma handPresent_exclusive (env : Env) (s : EngineState) (i : ℕ)
    (lms : List Point2) (now : ℝ) (hex : GrabExclusive s) :
    GrabExclusive (handPresent env s i lms now) := by
  cases h : s.hands.get? i with
  | none =>
    simp only [handPresent, h]
    exact hex
  | some hs =>
    simp only [handPresent, h]
    have hs1ex : GrabExclusive
        { s with hands := modifyIdx s.hands i (handFrameUpdate env s.cam i lms now) } :=
      grabExclusive_update s i _ hex
        (fun hs0 _ => Or.inr (Or.inl (handFrameUpdate_grab env s.cam i lms now hs0)))
    split_ifs with h1 h2
    · exact tryStartGrab_exclusive _ _ _ hs1ex
    · exact endGrab_exclusive _ _ _ hs1ex
    · exact hs1ex

lemma initialState_exclusive : GrabExclusive initialState := by
  intro i j hi hj bid hij hgi hgj hgrab
  have hnone : hi.grabActiveId = none := by
    match i, hgi with
    | 0, hgi => cases hgi; rfl
    | 1, hgi => cases hgi; rfl
    | (n + 2), hgi => simp [initialState] at hgi
  rw [hnone] at hgrab
  exact absurd hgrab (by simp)

lemma step_exclusive (s s2 : EngineState) (h : Step s s2)
    (hex : GrabExclusive s) : GrabExclusive s2 := by
  cases h with
  | spawnCircle env r ox oy vx => exact grabExclusive_of_hands_eq _ _ rfl hex
  | spawnBox env w h2 ox oy vx => exact grabExclusive_of_hands_eq _ _ rfl hex
  | reset => exact resetScene_exclusive s
  | tune zoom gravity floorHeight bounciness friction =>
    exact grabExclusive_of_hands_eq _ _ rfl hex
  | wheel zoomOut => exact grabExclusive_of_hands_eq _ _ rfl hex
  | resizeWin env => exact grabExclusive_of_hands_eq _ _ rfl hex
  | physics env now dt =>
    exact grabExclusive_of_hands_eq _ _ (stepPhysics_hands env now s dt) hex
  | present env i lms now => exact handPresent_exclusive env s i lms now hex
  | missing i now => exact processHandMissing_exclusive s i now hex

lemma onResize_map_id (env : Env) (s : EngineState) :
    (onResize env s).bodies.map (fun b => b.id) = s.bodies.map (fun b => b.id) := by
  simp only [onResize]
  apply map_id_of_pointwise
  intro b
  cases hsh : b.shape with
  | circle r => simp [hsh]
  | box w h => simp [hsh]

lemma handPresent_state (env : Env) (s : EngineState) (i : ℕ)
    (lms : List Point2) (now : ℝ) :
    (handPresent env s i lms now).bodies.map (fun b => b.id)
      = s.bodies.map (fun b => b.id) ∧
    (handPresent env s i lms now).nextId = s.nextId := by
  cases h : s.hands.get? i with
  | none =>
    simp only [handPresent, h]
    constructor <;> trivial
  | some hs =>
    simp only [handPresent, h]
    split_ifs with h1 h2
    · have hts := tryStartGrab_state env
        { s with hands := modifyIdx s.hands i (handFrameUpdate env s.cam i lms now) } i
      constructor
      · rw [hts.1]
      · exact hts.2
    · have hend := endGrab_state
        { s with hands := modifyIdx s.hands i (handFrameUpdate env s.cam i lms now) } i now
      exact ⟨hend.1, hend.2⟩
    · constructor <;> trivial

lemma step_bodyIds (s s2 : EngineState) (h : Step s s2)
    (hok : BodyIdsOk s) : BodyIdsOk s2 := by
  cases h with
  | spawnCircle env r ox oy vx => exact bodyIdsOk_append s _ rfl hok
  | spawnBox env w h2 ox oy vx => exact bodyIdsOk_append s _ rfl hok
  | reset => exact ⟨by simp [resetScene], by simp [resetScene]⟩
  | tune zoom gravity floorHeight bounciness friction =>
    exact BodyIdsOk_of_map_id_eq s _
      (map_id_of_pointwise
        (fun b => { b with restitution := bounciness, friction := friction })
        (fun b => rfl) s.bodies) rfl hok
  | wheel zoomOut => exact BodyIdsOk_of_map_id_eq s _ rfl rfl hok
  | resizeWin env =>
    exact BodyIdsOk_of_map_id_eq s _ (onResize_map_id env s) rfl hok
  | physics env now dt =>
    exact BodyIdsOk_of_map_id_eq s _ (stepPhysics_map_id env now s dt)
      (stepPhysics_nextId env now s dt) hok
  | present env i lms now =>
    exact BodyIdsOk_of_map_id_eq s _ (handPresent_state env s i lms now).1
      (handPresent_state env s i lms now).2 hok
  | missing i now =>
    exact BodyIdsOk_of_map_id_eq s _
      (endGrab_state { s with hands := modifyIdx s.hands i clearHandTransient } i now).1
      (endGrab_state { s with hands := modifyIdx s.hands i clearHandTransient } i now).2 hok

lemma initialState_bodyIds : BodyIdsOk initialState :=
  ⟨by simp [initialState], by simp [initialState]⟩

/-! ### Claim C3 — grab exclusivity -/

/-- Claim C3: in every reachable engine state no two distinct hand slots hold
the same non-null `grabActiveId`, and this exclusivity survives any two grab
attempts made by (possibly distinct) hands in the same tick, because the
candidate search of `tryStartGrabForHand` skips bodies already claimed by a
different hand. -/
theorem claim3_grab_exclusive (s : EngineState) (h : Reachable s) :
    GrabExclusive s ∧
    ∀ env i j, GrabExclusive (tryStartGrabForHand env (tryStartGrabForHand env s i) j) := by
  have h2 : Relation.ReflTransGen Step initialState s := h
  clear h
  have main : GrabExclusive s := by
    induction h2 with
    | refl => exact initialState_exclusive
    | tail _ hstep ih => exact step_exclusive _ _ hstep ih
  exact ⟨main, fun env i j =>
    tryStartGrab_exclusive env _ j (tryStartGrab_exclusive env s i main)⟩

/-- Witness for claim C3 at the state reached by spawning one circle. -/
theorem claim3_witness :
    GrabExclusive (addCircle ⟨800, 600⟩ initialState 20 0 0 0) ∧
    ∀ env i j, GrabExclusive (tryStartGrabForHand env
      (tryStartGrabForHand env (addCircle ⟨800, 600⟩ initialState 20 0 0 0) i) j) :=
  claim3_grab_exclusive _
    (Relation.ReflTransGen.single (Step.spawnCircle initialState ⟨800, 600⟩ 20 0 0 0))

/-! ### Claim C9 — body-id bookkeeping -/

/-- Counterexample to claim C9 as stated: ids ARE reused across scene resets.
Spawning a circle in a fresh session yields a body with id 1; after
`resetScene` (which resets the `nextId` counter to 1) the next spawned circle
receives id 1 again, and that second session state is reachable. -/
theorem claim9_counterexample :
    (addCircle ⟨800, 600⟩ initialState 20 0 0 0).bodies.map (fun b => b.id) = [1] ∧
    (addCircle ⟨800, 600⟩ (resetScene (addCircle ⟨800, 600⟩ initialState 20 0 0 0)) 20 0 0 0).bodies.map (fun b => b.id) = [1] ∧
    Reachable (addCircle ⟨800, 600⟩ (resetScene (addCircle ⟨800, 600⟩ initialState 20 0 0 0)) 20 0 0 0) := by
  refine ⟨rfl, rfl, ?_⟩
  exact Relation.ReflTransGen.tail
    (Relation.ReflTransGen.tail
      (Relation.ReflTransGen.single (Step.spawnCircle initialState ⟨800, 600⟩ 20 0 0 0))
      (Step.reset _))
    (Step.spawnCircle _ ⟨800, 600⟩ 20 0 0 0)

/-- Claim C9 (amended): in every reachable state the ids of coexisting bodies
are strictly increasing in creation order (hence pairwise distinct), all
below the `nextId` counter, and a spawn appends a body carrying exactly the
current counter value while leaving every existing id unchanged; but ids are
NOT unique across scene resets, since `resetScene` restarts the counter. -/
theorem claim9_ids (s : EngineState) (h : Reachable s) :
    BodyIdsOk s ∧
    (s.bodies.map (fun b => b.id)).Pairwise (· ≠ ·) ∧
    ∀ env r ox oy vx, (addCircle env s r ox oy vx).bodies.map (fun b => b.id)
      = s.bodies.map (fun b => b.id) ++ [s.nextId] := by
  have h2 : Relation.ReflTransGen Step initialState s := h
  clear h
  have main : BodyIdsOk s := by
    induction h2 with
    | refl => exact initialState_bodyIds
    | tail _ hstep ih => exact step_bodyIds _ _ hstep ih
  refine ⟨main, List.Pairwise.imp (fun hlt => ne_of_lt hlt) main.1, ?_⟩
  intro env r ox oy vx
  simp [addCircle]

/-- Witness for claim C9 at the state reached by spawning one circle. -/
theorem claim9_witness :
    BodyIdsOk (addCircle ⟨800, 600⟩ initialState 20 0 0 0) ∧
    ((addCircle ⟨800, 600⟩ initialState 20 0 0 0).bodies.map (fun b => b.id)).Pairwise (· ≠ ·) ∧
    ∀ env r ox oy vx,
      (addCircle env (addCircle ⟨800, 600⟩ initialState 20 0 0 0) r ox oy vx).bodies.map (fun b => b.id)
        = (addCircle ⟨800, 600⟩ initialState 20 0 0 0).bodies.map (fun b => b.id)
          ++ [(addCircle ⟨800, 600⟩ initialState 20 0 0 0).nextId] :=
  claim9_ids _
    (Relation.ReflTransGen.single (Step.spawnCircle initialState ⟨800, 600⟩ 20 0 0 0))

end

end Tekton
